import Mathlib

/-!
Verification of the Buy-Prime-Labels backend core.

This file gives a shallow embedding, in Lean 4, of the core logic of the
backend (`backend/src/config.js` route module and `backend/src/amazonClient.js`):

* the ZPL label validator (`validateZpl`) and injector (`injectSkuToZpl`),
* the retrying remote-call executor (`retryWithBackoff`, `isRetryableError`),
* the order-synchronization upsert (`POST /api/sync-orders`),
* the single and bulk label-purchase endpoints (`POST /api/buy-label`,
  `POST /api/bulk-buy-labels`) and the label-request validator.

JavaScript strings are modelled as `List Char` (`Str`).  JavaScript string
primitives used by the source (`indexOf`, `lastIndexOf`, `split`-based
occurrence counting, `trim`, `parseInt`, `slice` splicing) are re-implemented
below with the same semantics on the character level.  External collaborators
(PostgreSQL, the Amazon SP-API client, gzip decoding) are modelled as explicit
state (`OrdersDb`, `DefaultsDb`) or as oracle parameters giving the outcome of
each remote call, so every route handler becomes a pure function from its
inputs and oracles to its response and the successor state.
-/

namespace BuyPrimeLabels

/-- JavaScript strings are modelled character by character. -/
abbrev Str := List Char

/-! ### JavaScript string primitives -/

/-- Truthiness test on a trimmed string: `!s.trim()` in JS is true exactly when
every character of `s` is whitespace (equivalently the trimmed string is empty). -/
def isBlank (s : Str) : Bool := s.all fun c => c.isWhitespace

/-- JS `String.prototype.trim`: drop leading and trailing whitespace. -/
def jsTrim (s : Str) : Str :=
  ((s.dropWhile Char.isWhitespace).reverse.dropWhile Char.isWhitespace).reverse

/-- Index of the first occurrence of `pat` in the scanned list, if any
(helper for JS `indexOf`). -/
def firstOccIdx (pat : Str) : Str → Option Nat
  | [] => if pat.isPrefixOf ([] : Str) then some 0 else none
  | c :: t =>
    if pat.isPrefixOf (c :: t) then some 0
    else (firstOccIdx pat t).map (· + 1)

/-- Index of the last occurrence of `pat` in the scanned list, if any
(helper for JS `lastIndexOf`). -/
def lastOccIdx (pat : Str) : Str → Option Nat
  | [] => if pat.isPrefixOf ([] : Str) then some 0 else none
  | c :: t =>
    match (lastOccIdx pat t).map (· + 1) with
    | some j => some j
    | none => if pat.isPrefixOf (c :: t) then some 0 else none

/-- JS `haystack.indexOf(pat)`: first occurrence index, `-1` when absent. -/
def jsIndexOf (s pat : Str) : Int :=
  match firstOccIdx pat s with
  | some i => (i : Int)
  | none => -1

/-- JS `haystack.lastIndexOf(pat)`: last occurrence index, `-1` when absent. -/
def jsLastIndexOf (s pat : Str) : Int :=
  match lastOccIdx pat s with
  | some i => (i : Int)
  | none => -1

/-- Count of non-overlapping, leftmost occurrences of `needle`, with explicit
structural fuel (`fuel ≥ haystack.length` makes it total); this is the value of
`haystack.split(needle).length - 1` used by the source's `countOccurrences`. -/
def countOccurrencesAux (needle : Str) : Nat → Str → Nat
  | _, [] => 0
  | 0, _ => 0
  | fuel + 1, c :: t =>
    if needle.isPrefixOf (c :: t) then
      1 + countOccurrencesAux needle fuel (t.drop (needle.length - 1))
    else
      countOccurrencesAux needle fuel t

/-- Model of `countOccurrences` from `config.js`: `haystack.split(needle).length - 1`,
and `0` for an empty needle. -/
def countOccurrences (haystack needle : Str) : Nat :=
  if needle.isEmpty then 0 else countOccurrencesAux needle haystack.length haystack

/-- Case-insensitive character comparison. -/
def ciEqChar (a b : Char) : Bool := a.toLower == b.toLower

/-- Case-insensitive prefix test (for the `i` flag of the source's regex). -/
def ciIsPrefixOf : Str → Str → Bool
  | [], _ => true
  | _ :: _, [] => false
  | a :: as, b :: bs => ciEqChar a b && ciIsPrefixOf as bs

/-- Numeric value of a digit run (the `parseInt(match[1], 10)` of a `\d+`
capture; exact, with no floating-point rounding). -/
def digitsVal (ds : Str) : Nat :=
  ds.foldl (fun acc c => 10 * acc + (c.toNat - 48)) 0

/-- Try to match `^<field><digits>` (case-insensitive on `field`) at the head
of `s`, returning the captured number. -/
def matchFieldAt (field : Str) (s : Str) : Option Nat :=
  match s with
  | '^' :: rest =>
    if ciIsPrefixOf field rest then
      let ds := (rest.drop field.length).takeWhile Char.isDigit
      if ds.isEmpty then none else some (digitsVal ds)
    else none
  | _ => none

/-- Leftmost regex match scan for `parseZplNumber`. -/
def parseZplNumberAux (field : Str) : Str → Option Nat
  | [] => none
  | c :: rest =>
    match matchFieldAt field (c :: rest) with
    | some n => some n
    | none => parseZplNumberAux field rest

/-- Model of `parseZplNumber` from `config.js`: first match of `\^<field>(\d+)` with the
`i` flag, parsed in base 10; `null` (here `none`) when absent. -/
def parseZplNumber (field : Str) (zpl : Str) : Option Nat :=
  parseZplNumberAux field zpl

/-- Digit-prefix parser underlying JS `Number.parseInt(s, 10)` after the
optional sign. -/
def parseIntDigits (s : Str) : Option Nat :=
  let ds := s.takeWhile Char.isDigit
  if ds.isEmpty then none else some (digitsVal ds)

/-- JS `Number.parseInt(s, 10)` on a pre-trimmed string: optional sign, then a
digit prefix; `NaN` (here `none`) when no digit follows. -/
def jsParseInt (s : Str) : Option Int :=
  match s with
  | '+' :: rest => (parseIntDigits rest).map fun n => (n : Int)
  | '-' :: rest => (parseIntDigits rest).map fun n => -(n : Int)
  | _ => (parseIntDigits s).map fun n => (n : Int)

/-! ### ZPL validator (`validateZpl`, config.js lines 73-127) -/

/-- Parsed metadata of `validateZpl` (`-1` marks an absent marker, as in the
source; `none` marks an absent or unparseable `^PW`/`^LL` declaration). -/
structure ZplMeta where
  startIndex : Int
  endIndex : Int
  printWidth : Option Nat
  labelLength : Option Nat
deriving DecidableEq, Repr

/-- Result shape of `validateZpl`. -/
structure ZplValidation where
  ok : Bool
  errors : List String
  warnings : List String
  meta : ZplMeta
deriving DecidableEq, Repr

/-- The `'^XA'` start marker. -/
def xaMarker : Str := '^' :: 'X' :: 'A' :: []

/-- The `'^XZ'` end marker. -/
def xzMarker : Str := '^' :: 'X' :: 'Z' :: []

/-- The `'PW'` field name of the print-width declaration. -/
def pwField : Str := 'P' :: 'W' :: []

/-- The `'LL'` field name of the label-length declaration. -/
def llField : Str := 'L' :: 'L' :: []

/-- Model of `validateZpl` from `config.js`: structural validation of a ZPL payload.
The non-string input case of the JS guard is outside the model (inputs are
strings); `!zpl.trim()` is the `isBlank` test. -/
def validateZpl (zpl : Str) : ZplValidation :=
  if isBlank zpl then
    { ok := false
      errors := ["ZPL payload is empty."]
      warnings := []
      meta := { startIndex := -1, endIndex := -1, printWidth := none, labelLength := none } }
  else
    let startIndex := jsIndexOf zpl xaMarker
    let endIndex := jsLastIndexOf zpl xzMarker
    let errors :=
      (if startIndex == -1 then ["Missing ^XA start marker."] else []) ++
      (if endIndex == -1 then ["Missing ^XZ end marker."] else []) ++
      (if startIndex != -1 && endIndex != -1 && decide (endIndex < startIndex) then
        ["^XZ end marker appears before ^XA start marker."] else [])
    let xaCount := countOccurrences zpl xaMarker
    let xzCount := countOccurrences zpl xzMarker
    let printWidth := parseZplNumber pwField zpl
    let labelLength := parseZplNumber llField zpl
    let warnings :=
      (if xaCount > 1 then ["Multiple ^XA markers detected."] else []) ++
      (if xzCount > 1 then ["Multiple ^XZ markers detected."] else []) ++
      (if endIndex != -1 && decide (endIndex < (zpl.length : Int) - 2) then
        ["Trailing content detected after final ^XZ marker."] else []) ++
      (if printWidth.isNone then ["Missing ^PW (print width) definition."] else []) ++
      (if labelLength.isNone then ["Missing ^LL (label length) definition."] else [])
    { ok := errors.isEmpty
      errors := errors
      warnings := warnings
      meta := { startIndex := startIndex, endIndex := endIndex
                printWidth := printWidth, labelLength := labelLength } }

/-! ### ZPL injector (`injectSkuToZpl`, config.js lines 129-256) -/

/-- Fixed width of the injected bounding box (`ZPL_INJECT_BOX_WIDTH`). -/
def ZPL_INJECT_BOX_WIDTH : Nat := 700

/-- Fixed height of the injected bounding box (`ZPL_INJECT_BOX_HEIGHT`). -/
def ZPL_INJECT_BOX_HEIGHT : Nat := 60

/-- Maximum sku length before truncation (`ZPL_MAX_SKU_LENGTH`). -/
def ZPL_MAX_SKU_LENGTH : Nat := 20

/-- A JS value passed as a coordinate override: a number, a string, or
`undefined` (a missing key). -/
inductive OverrideVal where
  | num (n : Int)
  | str (s : Str)
  | undef
deriving DecidableEq, Repr

/-- Model of `coerceOverride` from `config.js`: accept a finite non-negative number as
is, parse a non-blank string with `parseInt(·, 10)` and accept a finite
non-negative result, and return `null` (`none`) otherwise.  Integers model the
numeric case, so `Number.isFinite` always holds. -/
def coerceOverride : OverrideVal → Option Int
  | .num n => if 0 ≤ n then some n else none
  | .str s =>
    let trimmed := jsTrim s
    if trimmed.isEmpty then none
    else
      match jsParseInt trimmed with
      | some parsed => if 0 ≤ parsed then some parsed else none
      | none => none
  | .undef => none

/-- Result of `truncateSku`. -/
structure TruncResult where
  value : Str
  truncated : Bool
deriving DecidableEq, Repr

/-- Model of `truncateSku` from `config.js`: keep skus of at most 20 characters, else
keep the first 17 characters and append `...`. -/
def truncateSku (skuText : Str) : TruncResult :=
  if skuText.length ≤ ZPL_MAX_SKU_LENGTH then { value := skuText, truncated := false }
  else { value := skuText.take (ZPL_MAX_SKU_LENGTH - 3) ++ ('.' :: '.' :: '.' :: []), truncated := true }

/-- The `options` argument of `injectSkuToZpl`. -/
structure InjectOptions where
  x : OverrideVal
  y : OverrideVal
  dryRun : Bool
deriving DecidableEq, Repr

/-- Result shape of `injectSkuToZpl` (`error` is present exactly on the
failure returns of the source). -/
structure InjectResult where
  success : Bool
  zpl : Str
  error : Option String
deriving DecidableEq, Repr

/-- The two-line injection block template of `injectSkuToZpl`:
`^FO<x>,<y>^GB700,60,3^FS` then a newline then
`^FO<x>,<y+20>^A0N,30,30^FD SKU: <sku>  QTY: <qty>^FS`. -/
def injectionBlockStr (x y : Int) (sku : Str) (qty : Int) : Str :=
  "^FO".toList ++ (toString x).toList ++ [','] ++ (toString y).toList ++
  "^GB".toList ++ (toString ZPL_INJECT_BOX_WIDTH).toList ++ [','] ++
  (toString ZPL_INJECT_BOX_HEIGHT).toList ++ ",3^FS".toList ++ ['\n'] ++
  "^FO".toList ++ (toString x).toList ++ [','] ++ (toString (y + 20)).toList ++
  "^A0N,30,30^FD SKU: ".toList ++ sku ++ "  QTY: ".toList ++ (toString qty).toList ++
  "^FS".toList

/-- Model of `injectSkuToZpl` from `config.js`, parameterized by the configured default
coordinates (`ZPL_INJECT_X`, `ZPL_INJECT_Y`; `parseNonNegativeInt` guarantees
they are non-negative, hence `Nat`).  The quantity is modelled as an integer,
on which `Number.isFinite` always holds. -/
def injectSkuToZpl (cfgX cfgY : Nat) (originalZpl : Str) (sku : Str) (quantity : Int)
    (options : InjectOptions) : InjectResult :=
  let validation := validateZpl originalZpl
  if !validation.ok then
    { success := false, zpl := originalZpl
      error := some (String.intercalate " " validation.errors) }
  else
    let injectX : Int := (coerceOverride options.x).getD (cfgX : Int)
    let injectY : Int := (coerceOverride options.y).getD (cfgY : Int)
    let skuText := if (jsTrim sku).isEmpty then "UNKNOWN".toList else jsTrim sku
    let qtyText : Int := if 0 < quantity then quantity else 1
    let safeSku := truncateSku skuText
    if injectX < 0 || injectY < 0 then
      { success := false, zpl := originalZpl
        error := some "Injection coordinates must be non-negative." }
    else
      let widthExceeded :=
        match validation.meta.printWidth with
        | some pw => decide ((pw : Int) < injectX + (ZPL_INJECT_BOX_WIDTH : Int))
        | none => false
      if widthExceeded then
        { success := false, zpl := originalZpl
          error := some ("Injection exceeds label width (" ++
            toString (injectX + (ZPL_INJECT_BOX_WIDTH : Int)) ++ " > " ++
            toString (validation.meta.printWidth.getD 0) ++ ").") }
      else
        let lengthExceeded :=
          match validation.meta.labelLength with
          | some ll => decide ((ll : Int) < injectY + (ZPL_INJECT_BOX_HEIGHT : Int))
          | none => false
        if lengthExceeded then
          { success := false, zpl := originalZpl
            error := some ("Injection exceeds label length (" ++
              toString (injectY + (ZPL_INJECT_BOX_HEIGHT : Int)) ++ " > " ++
              toString (validation.meta.labelLength.getD 0) ++ ").") }
        else
          if options.dryRun then
            { success := true, zpl := originalZpl, error := none }
          else
            let idx := validation.meta.endIndex.toNat
            let injectionBlock := injectionBlockStr injectX injectY safeSku.value qtyText
            let modifiedZpl :=
              originalZpl.take idx ++ injectionBlock ++ ['\n'] ++ originalZpl.drop idx
            let postValidation := validateZpl modifiedZpl
            if !postValidation.ok then
              { success := false, zpl := originalZpl
                error := some (String.intercalate " " postValidation.errors) }
            else
              { success := true, zpl := modifiedZpl, error := none }

/-! ### Retrying remote-call executor (`amazonClient.js` lines 7-91) -/

/-- JS `haystack.includes(needle)` on Lean strings. -/
def jsIncludes (s pat : String) : Bool :=
  (firstOccIdx pat.toList s.toList).isSome

/-- The canonical shape of an error thrown by the SP-API client or the network
layer, with each of the optional fields the classifier inspects
(`error.statusCode`, `error.response?.status`, `error.status`, `error.code`,
`error.errors?.[0]?.code`, `error.message`); `none` models an absent field. -/
structure JsError where
  statusCode : Option Int
  responseStatus : Option Int
  status : Option Int
  code : Option String
  firstErrCode : Option String
  message : Option String
deriving DecidableEq, Repr

/-- Model of `RETRYABLE_ERROR_CODES` from `amazonClient.js`. -/
def RETRYABLE_ERROR_CODES : List String :=
  ["QuotaExceeded", "ETIMEDOUT", "ESOCKETTIMEDOUT", "ECONNRESET", "ECONNREFUSED",
   "EAI_AGAIN", "ENOTFOUND", "ECONNABORTED", "ENETUNREACH"]

/-- Model of `getErrorStatus`: `error?.statusCode ?? error?.response?.status ?? error?.status ?? null`. -/
def getErrorStatus (e : JsError) : Option Int :=
  e.statusCode <|> e.responseStatus <|> e.status

/-- Model of `hasQuotaExceeded`: explicit code, first embedded error code, or the
substring `QuotaExceeded` in the message. -/
def hasQuotaExceeded (e : JsError) : Bool :=
  e.code == some "QuotaExceeded" ||
  e.firstErrCode == some "QuotaExceeded" ||
  (match e.message with
   | some m => jsIncludes m "QuotaExceeded"
   | none => false)

/-- Model of `isNetworkTimeout`: a retryable network error code, or the substring
`timeout` in the lower-cased message.  The JS truthiness guard on
`error?.code` is absorbed by the membership test (the empty string is not a
member of the set). -/
def isNetworkTimeout (e : JsError) : Bool :=
  (match e.code with
   | some c => c ∈ RETRYABLE_ERROR_CODES
   | none => false) ||
  (match e.message with
   | some m => jsIncludes m.toLower "timeout"
   | none => false)

/-- Model of `isRetryableError` from `amazonClient.js`: 503 is always retryable, any
other truthy status `≥ 400` is never retryable, otherwise quota or network
classification applies.  The middle guard keeps the JS truthiness of
`status && status >= 400` (a status of `0` is falsy). -/
def isRetryableError (e : JsError) : Bool :=
  let status := getErrorStatus e
  if status == some 503 then true
  else if (match status with
           | some s => s != 0 && decide (400 ≤ s)
           | none => false) then false
  else hasQuotaExceeded e || isNetworkTimeout e

/-- The observability event emitted before each retry (the logged
`retryNumber` and `delayMs` fields; the context label and the error payload of
the log line are elided). -/
structure RetryEvent where
  retryNumber : Nat
  delayMs : Nat
deriving DecidableEq, Repr

/-- The loop body of `retryWithBackoff`.  The operation is modelled as a
function of the invocation count.  `remaining` is `maxRetries - attempt`, so
the `attempt === maxRetries` exit of the source is the `remaining = 0` case;
the delay before retry `attempt + 1` is `baseDelayMs * 2 ^ attempt`. -/
def retryGo {α : Type} (fn : Nat → Except JsError α) (baseDelayMs : Nat) :
    Nat → Nat → Except JsError α × List RetryEvent
  | attempt, 0 =>
    match fn attempt with
    | .ok v => (.ok v, [])
    | .error e => (.error e, [])
  | attempt, remaining + 1 =>
    match fn attempt with
    | .ok v => (.ok v, [])
    | .error e =>
      if isRetryableError e then
        let rest := retryGo fn baseDelayMs (attempt + 1) remaining
        (rest.1, { retryNumber := attempt + 1, delayMs := baseDelayMs * 2 ^ attempt } :: rest.2)
      else (.error e, [])

/-- Model of `retryWithBackoff` from `amazonClient.js` (defaults `maxRetries = 3`,
`baseDelayMs = 1000`): the returned value together with the emitted retry
events. -/
def retryWithBackoff {α : Type} (fn : Nat → Except JsError α)
    (maxRetries : Nat := 3) (baseDelayMs : Nat := 1000) :
    Except JsError α × List RetryEvent :=
  retryGo fn baseDelayMs 0 maxRetries

/-! ### Order store and the sync-orders upsert (config.js lines 490-567) -/

/-- A line item of an order (`{ sku, quantity }` as produced by
`fetchUnshippedPrimeOrdersWithItems`). -/
structure OrderItem where
  sku : Str
  quantity : Int
deriving DecidableEq, Repr

/-- A freshly fetched remote order, in the snake_case shape the sync route
receives from `fetchUnshippedPrimeOrdersWithItems`.  `purchase_date` and
`shipping_address` are opaque payloads (the route stores them as is, modulo
the `new Date` / `JSON.stringify` conversions, which are injective renderings
we keep abstract). -/
structure RemoteOrder where
  amazon_order_id : String
  purchase_date : Option String
  customer_name : String
  shipping_address : String
  items : List OrderItem
  is_prime : Bool
  status : Option String
deriving DecidableEq, Repr

/-- A stored row of the `orders` table. -/
structure OrderRow where
  purchase_date : Option String
  customer_name : String
  shipping_address : String
  items : List OrderItem
  is_prime : Bool
  status : String
  tracking_id : Option String
  label_zpl : Option Str
deriving DecidableEq, Repr

/-- The `orders` table, keyed by `amazon_order_id`. -/
def OrdersDb := String → Option OrderRow

/-- The conditional upsert of `POST /api/sync-orders` (the
`INSERT ... ON CONFLICT (amazon_order_id) DO UPDATE ... WHERE orders.status
!= 'LabelBought'` query).  Returns the updated table and the `RETURNING (xmax
= 0) AS inserted` outcome: `some true` for a fresh insert, `some false` for an
applied conflict update, and `none` when the `WHERE` clause suppressed the
update (`rowCount = 0`).  `EXCLUDED.status` is `COALESCE($7, 'Unshipped')`. -/
def upsertOrder (db : OrdersDb) (o : RemoteOrder) : OrdersDb × Option Bool :=
  match db o.amazon_order_id with
  | none =>
    (fun k => if k = o.amazon_order_id then
        some { purchase_date := o.purchase_date
               customer_name := o.customer_name
               shipping_address := o.shipping_address
               items := o.items
               is_prime := o.is_prime
               status := o.status.getD "Unshipped"
               tracking_id := none
               label_zpl := none }
      else db k,
     some true)
  | some existing =>
    if existing.status ≠ "LabelBought" then
      (fun k => if k = o.amazon_order_id then
          some { existing with
                 purchase_date := o.purchase_date
                 customer_name := o.customer_name
                 shipping_address := o.shipping_address
                 items := o.items
                 is_prime := o.is_prime
                 status := o.status.getD "Unshipped" }
        else db k,
       some false)
    else (db, none)

/-- Response of `POST /api/sync-orders`. -/
inductive SyncResponse where
  | okResp (synced inserted updated : Nat)
  | errResp (msg : String)
deriving DecidableEq, Repr

/-- The per-order reconciliation loop, run inside the transaction.  `failsAt`
is the oracle telling which upsert queries throw (index in the fetched batch);
a throw aborts the whole loop, as in the source's `try` block.  On success the
transaction-local table and the `inserted` / `updated` counters are
returned. -/
def syncLoop (failsAt : Nat → Bool) :
    List RemoteOrder → Nat → OrdersDb → Nat → Nat → Except Unit (OrdersDb × Nat × Nat)
  | [], _, db, ins, upd => .ok (db, ins, upd)
  | o :: rest, i, db, ins, upd =>
    if failsAt i then .error ()
    else
      let step := upsertOrder db o
      match step.2 with
      | some true => syncLoop failsAt rest (i + 1) step.1 (ins + 1) upd
      | some false => syncLoop failsAt rest (i + 1) step.1 ins (upd + 1)
      | none => syncLoop failsAt rest (i + 1) step.1 ins upd

/-- The route `POST /api/sync-orders`: fetch (oracle outcome `fetched`), then reconcile
the whole batch inside a `BEGIN`/`COMMIT` transaction; any failure rolls the
transaction back, leaving the stored table untouched, and answers the 500
response of the `catch` branch. -/
def syncOrdersEndpoint (db : OrdersDb) (fetched : Except String (List RemoteOrder))
    (failsAt : Nat → Bool) : SyncResponse × OrdersDb :=
  match fetched with
  | .error _ => (.errResp "Failed to sync orders from Amazon.", db)
  | .ok orders =>
    match syncLoop failsAt orders 0 db 0 0 with
    | .ok (db', ins, upd) => (.okResp orders.length ins upd, db')
    | .error _ => (.errResp "Failed to sync orders from Amazon.", db)

/-! ### Label request validation (config.js lines 276-425)

Weights and dimensions are modelled as exact rationals: the numeric payload
case of `normalizeNumber` is the identity, and `Number.isFinite` always holds
on a rational. -/

/-- Model of `WEIGHT_UNITS`. -/
def WEIGHT_UNITS : List String := ["oz", "lb", "g", "kg"]

/-- Model of `DIMENSION_UNITS`. -/
def DIMENSION_UNITS : List String := ["in", "cm"]

/-- Model of `MAX_WEIGHT_LB`. -/
def MAX_WEIGHT_LB : ℚ := 150

/-- Model of `MIN_DIMENSION_IN`. -/
def MIN_DIMENSION_IN : ℚ := 1 / 10

/-- Model of `MAX_DIMENSION_IN`. -/
def MAX_DIMENSION_IN : ℚ := 108

/-- Model of `MAX_BULK_IDS`. -/
def MAX_BULK_IDS : Nat := 50

/-- String-level trim (JS `s.trim()`). -/
def strTrim (s : String) : String := String.mk (jsTrim s.toList)

/-- String-level blank test (JS `!s.trim()`). -/
def strBlank (s : String) : Bool := isBlank s.toList

/-- Model of `toInches`. -/
def toInches (value : ℚ) (unit : String) : ℚ :=
  if unit = "cm" then value / (254 / 100) else value

/-- Model of `toPounds` (the conversion constants of the source, as exact rationals). -/
def toPounds (value : ℚ) (unit : String) : ℚ :=
  if unit = "oz" then value / 16
  else if unit = "g" then value / (45359237 / 100000)
  else if unit = "kg" then value * (220462262 / 100000000)
  else value

/-- Model of `computeDimensionalWeightLb`. -/
def computeDimensionalWeightLb (length width height : ℚ) (unit : String) : ℚ :=
  if unit = "cm" then (length * width * height) / 5000 * (220462262 / 100000000)
  else (length * width * height) / 139

/-- A `weight` payload object. -/
structure Weight where
  value : ℚ
  unit : String
deriving DecidableEq, Repr

/-- A `dimensions` payload object. -/
structure Dimensions where
  length : ℚ
  width : ℚ
  height : ℚ
  unit : String
deriving DecidableEq, Repr

/-- The slice of a request body that `validateLabelRequest` inspects. -/
structure LabelPayload where
  amazon_order_id : Option String
  amazon_order_ids : Option (List String)
  weight : Option Weight
  dimensions : Option Dimensions
deriving DecidableEq, Repr

/-- Result shape of `validateLabelRequest`. -/
structure ReqValidation where
  ok : Bool
  errors : List String
  warnings : List String
deriving DecidableEq, Repr

/-- Model of `validateLabelRequest` from `config.js`.  The dimensional-weight warning
text elides the interpolated `toFixed(2)` rendering of the number. -/
def validateLabelRequest (payload : LabelPayload) : ReqValidation :=
  let idErrors :=
    match payload.amazon_order_ids with
    | some ids =>
      (if ids.length < 1 || ids.length > MAX_BULK_IDS then
        ["amazon_order_ids must contain between 1 and 50 order IDs."] else []) ++
      ids.enum.filterMap fun (p : Nat × String) =>
        if strBlank p.2 then
          some ("amazon_order_ids[" ++ toString p.1 ++ "] must be a non-empty string.")
        else none
    | none =>
      match payload.amazon_order_id with
      | some oid => if strBlank oid then ["amazon_order_id must be a non-empty string."] else []
      | none => ["amazon_order_id must be a non-empty string."]
  let weightErrors :=
    match payload.weight with
    | none => ["weight is required and must be an object."]
    | some w =>
      let weightUnit := strTrim w.unit
      (if ¬ (0 < w.value) then ["weight.value must be a positive number."] else []) ++
      (if weightUnit ∉ WEIGHT_UNITS then ["weight.unit must be one of: oz, lb, g, kg."] else []) ++
      (if weightUnit ∈ WEIGHT_UNITS ∧ MAX_WEIGHT_LB < toPounds w.value weightUnit then
        ["weight.value exceeds the 150 lb limit."] else [])
  let dimResult :=
    match payload.dimensions with
    | none => (["dimensions are required and must be an object."], [])
    | some d =>
      let dimensionUnit := strTrim d.unit
      let baseErrors :=
        (if ¬ (0 < d.length) then ["dimensions.length must be a positive number."] else []) ++
        (if ¬ (0 < d.width) then ["dimensions.width must be a positive number."] else []) ++
        (if ¬ (0 < d.height) then ["dimensions.height must be a positive number."] else []) ++
        (if dimensionUnit ∉ DIMENSION_UNITS then ["dimensions.unit must be one of: in, cm."] else [])
      if dimensionUnit ∈ DIMENSION_UNITS then
        let rangeErrors :=
          [("length", toInches d.length dimensionUnit),
           ("width", toInches d.width dimensionUnit),
           ("height", toInches d.height dimensionUnit)].filterMap fun (p : String × ℚ) =>
            if p.2 < MIN_DIMENSION_IN ∨ MAX_DIMENSION_IN < p.2 then
              some ("dimensions." ++ p.1 ++ " must be between 0.1 and 108 inches.")
            else none
        let dimWeight := computeDimensionalWeightLb d.length d.width d.height dimensionUnit
        (baseErrors ++ rangeErrors,
         if MAX_WEIGHT_LB < dimWeight then
           ["Dimensional weight exceeds 150 lb."] else [])
      else (baseErrors, [])
  let errors := idErrors ++ weightErrors ++ dimResult.1
  { ok := errors.isEmpty, errors := errors, warnings := dimResult.2 }

/-! ### Label purchase endpoints (config.js lines 569-809) -/

/-- A raw request body's ZPL-injection fields plus the payload slice above. -/
structure LabelRequestBody where
  amazon_order_id : Option String
  amazon_order_ids : Option (List String)
  weight : Option Weight
  dimensions : Option Dimensions
  zpl_inject_x : OverrideVal
  zpl_inject_y : OverrideVal
  zpl_inject_dry_run : Bool
deriving DecidableEq, Repr

/-- Model of `getZplInjectOptions` from `config.js`: pre-coerce the coordinate
overrides (dropping the key when the coercion yields `null`) and set `dryRun`
exactly when `zpl_inject_dry_run === true`. -/
def getZplInjectOptions (body : LabelRequestBody) : InjectOptions :=
  { x := match coerceOverride body.zpl_inject_x with
         | some n => .num n
         | none => .undef
    y := match coerceOverride body.zpl_inject_y with
         | some n => .num n
         | none => .undef
    dryRun := body.zpl_inject_dry_run }

/-- JS `a || b` for an optional string value (`undefined`, `null` and the
empty string are falsy). -/
def jsOrStr (a : Option Str) (b : Str) : Str :=
  match a with
  | some s => if s.isEmpty then b else s
  | none => b

/-- JS `a || b` for an optional integer value (`undefined`, `null` and `0`
are falsy). -/
def jsOrInt (a : Option Int) (b : Int) : Int :=
  match a with
  | some n => if n = 0 then b else n
  | none => b

/-- JS `trackingId || null` (the empty string collapses to `null`). -/
def jsOrNull (a : Option String) : Option String :=
  match a with
  | some t => if t.isEmpty then none else some t
  | none => none

/-- The successful outcome of `buyLabel` followed by `gunzipBase64Zpl`:
`originalZpl` is the decoded label markup (the base64/gzip decoding itself is
an external bijection kept abstract), plus the sku, quantity and tracking
fields echoed by `buyLabel`. -/
structure PurchaseOut where
  originalZpl : Str
  sku : Option Str
  quantity : Option Int
  trackingId : Option String
deriving DecidableEq, Repr

/-- A stored row of the `product_shipping_defaults` table. -/
structure ShippingDefault where
  weight_value : ℚ
  weight_unit : String
  length : ℚ
  width : ℚ
  height : ℚ
  dimension_unit : String
deriving DecidableEq, Repr

/-- The `product_shipping_defaults` table, keyed by sku. -/
def DefaultsDb := Str → Option ShippingDefault

/-- Insertion-ordered deduplication with an accumulator of already seen
elements (`new Set(...)` keeps the first occurrence of each element). -/
def dedupAux {α : Type} [DecidableEq α] (seen : List α) : List α → List α
  | [] => []
  | a :: t => if a ∈ seen then dedupAux seen t else a :: dedupAux (a :: seen) t

/-- The expression `new Set(items.map(item => item?.sku).filter(Boolean))` as an
insertion-ordered list: the distinct non-empty skus of the line items. -/
def distinctSkus (items : List OrderItem) : List Str :=
  dedupAux [] ((items.map OrderItem.sku).filter fun s => !s.isEmpty)

/-- The fallback first line item `{ sku: 'UNKNOWN', quantity: 1 }`. -/
def defaultFirstItem : OrderItem := { sku := "UNKNOWN".toList, quantity := 1 }

/-- Response of `POST /api/buy-label`. -/
inductive BuyResponse where
  | badRequest (details : List String)
  | notFound (msg : String)
  | serverError (msg : String)
  | success (zpl : Str) (trackingId : Option String) (dryRun : Bool)
deriving DecidableEq, Repr

/-- The route `POST /api/buy-label`, as a pure function of the stored tables, the
request body and the remote-purchase oracle (`remote` is the outcome of
`buyLabel` + `gunzipBase64Zpl`; `.error` covers any throw of that pipeline,
answered by the 500 of the `catch` branch).  On success the order row is
updated to `LabelBought` with the tracking id and the final markup, and the
shipping defaults are upserted when the line items have exactly one distinct
sku. -/
def buyLabelEndpoint (cfgX cfgY : Nat) (db : OrdersDb) (defaults : DefaultsDb)
    (body : LabelRequestBody) (remote : Except String PurchaseOut) :
    BuyResponse × OrdersDb × DefaultsDb :=
  let zplInjectOptions := getZplInjectOptions body
  let validation := validateLabelRequest
    { amazon_order_id := body.amazon_order_id, amazon_order_ids := none
      weight := body.weight, dimensions := body.dimensions }
  if !validation.ok then (.badRequest validation.errors, db, defaults)
  else
    match body.amazon_order_id.bind db with
    | none => (.notFound "Order not found in local database.", db, defaults)
    | some row =>
      match remote with
      | .error _ => (.serverError "Failed to buy label from Amazon.", db, defaults)
      | .ok p =>
        let items := row.items
        let firstItem := items.headD defaultFirstItem
        let injectionResult := injectSkuToZpl cfgX cfgY p.originalZpl
          (jsOrStr p.sku firstItem.sku) (jsOrInt p.quantity firstItem.quantity)
          zplInjectOptions
        if !injectionResult.success then
          (.serverError (injectionResult.error.getD "Failed to inject ZPL."), db, defaults)
        else
          let modifiedZpl := injectionResult.zpl
          let tracking := jsOrNull p.trackingId
          let oid := body.amazon_order_id.getD ""
          let db' : OrdersDb := fun k =>
            if k = oid then
              (db k).map fun r =>
                { r with status := "LabelBought", tracking_id := tracking
                         label_zpl := some modifiedZpl }
            else db k
          let ds := distinctSkus items
          let defaults' : DefaultsDb :=
            if ds.length = 1 then
              match body.weight, body.dimensions with
              | some w, some d =>
                fun k => if k = ds.headD [] then
                    some { weight_value := w.value, weight_unit := w.unit
                           length := d.length, width := d.width, height := d.height
                           dimension_unit := d.unit }
                  else defaults k
              | _, _ => defaults
            else defaults
          (.success modifiedZpl tracking zplInjectOptions.dryRun, db', defaults')

/-- A per-id success entry of the bulk report. -/
structure BulkEntryOk where
  amazon_order_id : String
  trackingId : Option String
deriving DecidableEq, Repr

/-- A per-id failure entry of the bulk report. -/
structure BulkEntryFail where
  amazon_order_id : String
  error : String
deriving DecidableEq, Repr

/-- The accumulator of the bulk loop (`results` plus the evolving `orders`
table). -/
structure BulkState where
  succeeded : List BulkEntryOk
  failed : List BulkEntryFail
  combinedZpl : Str
  db : OrdersDb

/-- One iteration of the `for` loop of `POST /api/bulk-buy-labels`: look the
order up, call the remote purchase oracle, inject, append to the combined
document (newline-separated), persist the row update, and record the per-id
entry; every failure records a `failed` entry and continues. -/
def bulkStep (cfgX cfgY : Nat) (purchase : String → Except String PurchaseOut)
    (opts : InjectOptions) (st : BulkState) (oid : String) : BulkState :=
  match st.db oid with
  | none =>
    { st with failed := st.failed ++ [{ amazon_order_id := oid, error := "Order not found in local database." }] }
  | some row =>
    match purchase oid with
    | .error e =>
      { st with failed := st.failed ++ [{ amazon_order_id := oid, error := e }] }
    | .ok p =>
      let firstItem := row.items.headD defaultFirstItem
      let injectionResult := injectSkuToZpl cfgX cfgY p.originalZpl
        (jsOrStr p.sku firstItem.sku) (jsOrInt p.quantity firstItem.quantity) opts
      if !injectionResult.success then
        { st with failed := st.failed ++
            [{ amazon_order_id := oid, error := injectionResult.error.getD "Failed to inject ZPL." }] }
      else
        let combined :=
          if st.combinedZpl.isEmpty then injectionResult.zpl
          else st.combinedZpl ++ ['\n'] ++ injectionResult.zpl
        let tracking := jsOrNull p.trackingId
        let db' : OrdersDb := fun k =>
          if k = oid then
            (st.db k).map fun r =>
              { r with status := "LabelBought", tracking_id := tracking
                       label_zpl := some injectionResult.zpl }
          else st.db k
        { succeeded := st.succeeded ++ [{ amazon_order_id := oid, trackingId := tracking }]
          failed := st.failed
          combinedZpl := combined
          db := db' }

/-- The `summary` object of the bulk response. -/
structure BulkSummary where
  total : Nat
  succeeded : Nat
  failed : Nat
deriving DecidableEq, Repr

/-- Response of `POST /api/bulk-buy-labels`. -/
inductive BulkResponse where
  | badRequest (details : List String)
  | okResp (succeeded : List BulkEntryOk) (failed : List BulkEntryFail)
      (zpl : Str) (dryRun : Bool) (summary : BulkSummary)

/-- The route `POST /api/bulk-buy-labels`: validate, then run the per-id loop
sequentially over the batch.  The shipping-defaults table is returned
unchanged: the bulk loop of the source never touches
`product_shipping_defaults`. -/
def bulkBuyLabelsEndpoint (cfgX cfgY : Nat) (db : OrdersDb) (defaults : DefaultsDb)
    (body : LabelRequestBody) (purchase : String → Except String PurchaseOut) :
    BulkResponse × OrdersDb × DefaultsDb :=
  let zplInjectOptions := getZplInjectOptions body
  let validation := validateLabelRequest
    { amazon_order_id := none, amazon_order_ids := body.amazon_order_ids
      weight := body.weight, dimensions := body.dimensions }
  if !validation.ok then (.badRequest validation.errors, db, defaults)
  else
    let ids := body.amazon_order_ids.getD []
    let final := ids.foldl (bulkStep cfgX cfgY purchase zplInjectOptions)
      { succeeded := [], failed := [], combinedZpl := [], db := db }
    (.okResp final.succeeded final.failed final.combinedZpl zplInjectOptions.dryRun
      { total := ids.length, succeeded := final.succeeded.length, failed := final.failed.length },
     final.db, defaults)

/-! ## Theorems -/

/-! ### Retry executor lemmas -/

/-- A 503 status is always classified retryable. -/
theorem isRetryableError_of_503 (e : JsError) (h : getErrorStatus e = some 503) :
    isRetryableError e = true := by
  simp [isRetryableError, h]

/-- A truthy non-503 status at or above 400 is never retryable. -/
theorem isRetryableError_of_4xx (e : JsError) (s : Int) (h : getErrorStatus e = some s)
    (h400 : 400 ≤ s) (h503 : s ≠ 503) : isRetryableError e = false := by
  have hs0 : s ≠ 0 := by omega
  simp [isRetryableError, h, h503, h400, hs0]

/-- The executor's result is exactly the outcome of the attempt whose index is
the number of emitted retry events. -/
theorem retryGo_result {α : Type} (fn : Nat → Except JsError α) (b : Nat) :
    ∀ (remaining attempt : Nat),
      fn (attempt + (retryGo fn b attempt remaining).2.length) =
        (retryGo fn b attempt remaining).1 := by
  intro remaining
  induction remaining with
  | zero =>
    intro attempt
    cases h : fn attempt <;> simp [retryGo, h]
  | succ r ih =>
    intro attempt
    cases h : fn attempt with
    | ok v => simp [retryGo, h]
    | error e =>
      by_cases hr : isRetryableError e
      · have hlen : attempt + ((retryGo fn b (attempt + 1) r).2.length + 1) =
            (attempt + 1) + (retryGo fn b (attempt + 1) r).2.length := by omega
        simpa [retryGo, h, hr, hlen] using ih (attempt + 1)
      · simp [retryGo, h, hr]

/-- C3: a zero-argument operation failing with HTTP 503 on each of its first
three invocations and succeeding on the fourth makes the retrying executor
(defaults: base delay 1000 ms, max retries 3) return the fourth invocation's
result and emit exactly three retry events with delays 1000 ms, 2000 ms and
4000 ms, in that order. -/
theorem retry_backoff_schedule_503 {α : Type} (fn : Nat → Except JsError α)
    (e0 e1 e2 : JsError) (v : α)
    (h0 : fn 0 = .error e0) (h1 : fn 1 = .error e1) (h2 : fn 2 = .error e2)
    (h3 : fn 3 = .ok v)
    (s0 : getErrorStatus e0 = some 503) (s1 : getErrorStatus e1 = some 503)
    (s2 : getErrorStatus e2 = some 503) :
    retryWithBackoff fn 3 1000 =
      (.ok v,
        [{ retryNumber := 1, delayMs := 1000 },
         { retryNumber := 2, delayMs := 2000 },
         { retryNumber := 3, delayMs := 4000 }]) := by
  have r0 := isRetryableError_of_503 e0 s0
  have r1 := isRetryableError_of_503 e1 s1
  have r2 := isRetryableError_of_503 e2 s2
  simp [retryWithBackoff, retryGo, h0, h1, h2, h3, r0, r1, r2]

/-- Concrete witness error carrying HTTP status 503. -/
def witnessErr503 : JsError :=
  { statusCode := some 503, responseStatus := none, status := none
    code := none, firstErrCode := none, message := none }

/-- Concrete witness operation: 503 on the first three invocations, success on
the fourth. -/
def witnessFn503 : Nat → Except JsError Nat :=
  fun i => if i < 3 then .error witnessErr503 else .ok 42

/-- Witness for the C3 theorem at a concrete operation. -/
theorem retry_backoff_schedule_503_witness :
    witnessFn503 0 = .error witnessErr503 ∧
    retryWithBackoff witnessFn503 3 1000 =
      (.ok 42,
        [{ retryNumber := 1, delayMs := 1000 },
         { retryNumber := 2, delayMs := 2000 },
         { retryNumber := 3, delayMs := 4000 }]) :=
  ⟨rfl,
   retry_backoff_schedule_503 witnessFn503 witnessErr503 witnessErr503 witnessErr503 42
     rfl rfl rfl rfl (by decide) (by decide) (by decide)⟩

/-- C4: the retrying executor either returns the operation's outcome or
re-raises exactly the error object of the last attempt it ran (the attempt
indexed by the number of emitted retry events), and an operation failing with
a non-503 HTTP status `≥ 400` is never retried: the executor fails on the
first attempt with that same error object. -/
theorem retry_fail_fast_and_verbatim :
    (∀ (α : Type) (fn : Nat → Except JsError α) (m b : Nat),
      fn (retryWithBackoff fn m b).2.length = (retryWithBackoff fn m b).1) ∧
    (∀ (α : Type) (fn : Nat → Except JsError α) (m b : Nat) (e : JsError) (s : Int),
      fn 0 = .error e → getErrorStatus e = some s → 400 ≤ s → s ≠ 503 →
      retryWithBackoff fn m b = (.error e, [])) := by
  constructor
  · intro α fn m b
    simpa using retryGo_result fn b m 0
  · intro α fn m b e s hfn hs h400 h503
    have hr := isRetryableError_of_4xx e s hs h400 h503
    cases m <;> simp [retryWithBackoff, retryGo, hfn, hr]

/-- Concrete witness error carrying HTTP status 400. -/
def witnessErr400 : JsError :=
  { statusCode := none, responseStatus := some 400, status := none
    code := none, firstErrCode := none, message := some "Bad Request" }

/-- Concrete witness operation that always fails with HTTP 400. -/
def witnessFn400 : Nat → Except JsError Nat := fun _ => .error witnessErr400

/-- Witness for the C4 theorem at a concrete operation. -/
theorem retry_fail_fast_and_verbatim_witness :
    witnessFn400 0 = .error witnessErr400 ∧
    retryWithBackoff witnessFn400 3 1000 = (.error witnessErr400, []) :=
  ⟨rfl,
   retry_fail_fast_and_verbatim.2 Nat witnessFn400 3 1000 witnessErr400 400
     rfl (by decide) (by decide) (by decide)⟩

/-! ### Sync-orders lemmas -/

/-- The conditional upsert never touches a row already at `LabelBought`. -/
theorem upsertOrder_ratchet (db : OrdersDb) (o : RemoteOrder) (oid : String) (r : OrderRow)
    (hdb : db oid = some r) (hlb : r.status = "LabelBought") :
    (upsertOrder db o).1 oid = some r := by
  by_cases hk : o.amazon_order_id = oid
  · subst hk
    rw [upsertOrder, hdb]
    simp [hlb, hdb]
  · have hk' : oid ≠ o.amazon_order_id := fun h => hk h.symm
    unfold upsertOrder
    cases hx : db o.amazon_order_id with
    | none => simpa [hk'] using hdb
    | some existing =>
      by_cases hs : existing.status = "LabelBought" <;> simpa [hs, hk'] using hdb

/-- The reconciliation loop preserves rows already at `LabelBought`. -/
theorem syncLoop_ratchet (failsAt : Nat → Bool) (oid : String) (r : OrderRow)
    (hlb : r.status = "LabelBought") :
    ∀ (orders : List RemoteOrder) (i : Nat) (db : OrdersDb) (ins upd : Nat),
      db oid = some r →
      ∀ db' ins' upd', syncLoop failsAt orders i db ins upd = .ok (db', ins', upd') →
        db' oid = some r := by
  intro orders
  induction orders with
  | nil =>
    intro i db ins upd hdb db' ins' upd' hrun
    simp [syncLoop] at hrun
    obtain ⟨h1, _, _⟩ := hrun
    exact h1 ▸ hdb
  | cons o rest ih =>
    intro i db ins upd hdb db' ins' upd' hrun
    rw [syncLoop] at hrun
    by_cases hf : failsAt i
    · simp [hf] at hrun
    · simp only [hf, if_false, Bool.false_eq_true] at hrun
      have hpres := upsertOrder_ratchet db o oid r hdb hlb
      rcases htag : (upsertOrder db o).2 with _ | b
      · rw [htag] at hrun
        exact ih (i + 1) _ ins upd hpres db' ins' upd' hrun
      · cases b <;> rw [htag] at hrun
        · exact ih (i + 1) _ ins (upd + 1) hpres db' ins' upd' hrun
        · exact ih (i + 1) _ (ins + 1) upd hpres db' ins' upd' hrun

/-- C1: re-running order synchronization leaves an order whose stored status
is already `LabelBought` entirely unchanged (status, tracking id, and
persisted label markup included), whatever the fetched remote payload
contains; a conflicting order at any other status has all synced fields
(purchase date, customer name, shipping address, items, Prime flag, status)
overwritten by the remote values. -/
theorem sync_status_ratchet :
    (∀ (db : OrdersDb) (fetched : Except String (List RemoteOrder)) (failsAt : Nat → Bool)
       (oid : String) (r : OrderRow),
      db oid = some r → r.status = "LabelBought" →
      (syncOrdersEndpoint db fetched failsAt).2 oid = some r) ∧
    (∀ (db : OrdersDb) (o : RemoteOrder) (r : OrderRow),
      db o.amazon_order_id = some r → r.status ≠ "LabelBought" →
      (upsertOrder db o).1 o.amazon_order_id = some
        { r with purchase_date := o.purchase_date
                 customer_name := o.customer_name
                 shipping_address := o.shipping_address
                 items := o.items
                 is_prime := o.is_prime
                 status := o.status.getD "Unshipped" }) := by
  constructor
  · intro db fetched failsAt oid r hdb hlb
    cases fetched with
    | error e => simpa [syncOrdersEndpoint] using hdb
    | ok orders =>
      unfold syncOrdersEndpoint
      dsimp only
      rcases hrun : syncLoop failsAt orders 0 db 0 0 with _ | ⟨db', ins', upd'⟩
      · simpa using hdb
      · simpa using syncLoop_ratchet failsAt oid r hlb orders 0 db 0 0 hdb db' ins' upd' hrun
  · intro db o r hdb hne
    rw [upsertOrder, hdb]
    simp [hne]

/-- Concrete stored row at `LabelBought` for the C1 witness. -/
def witnessBoughtRow : OrderRow :=
  { purchase_date := some "2024-01-01", customer_name := "Alice"
    shipping_address := "addr", items := [{ sku := "S1".toList, quantity := 1 }]
    is_prime := true, status := "LabelBought"
    tracking_id := some "TRK1", label_zpl := some ('^' :: 'X' :: 'A' :: '^' :: 'X' :: 'Z' :: []) }

/-- Concrete stored table for the C1 witness. -/
def witnessSyncDb : OrdersDb :=
  fun k => if k = "O-1" then some witnessBoughtRow else none

/-- Concrete conflicting remote payload for the C1 witness. -/
def witnessRemoteOrder : RemoteOrder :=
  { amazon_order_id := "O-1", purchase_date := some "2024-02-02"
    customer_name := "Mallory", shipping_address := "other"
    items := [], is_prime := false, status := some "Unshipped" }

/-- Witness for the C1 theorem at a concrete conflicting payload. -/
theorem sync_status_ratchet_witness :
    witnessSyncDb "O-1" = some witnessBoughtRow ∧
    (syncOrdersEndpoint witnessSyncDb (.ok [witnessRemoteOrder]) (fun _ => false)).2 "O-1" =
      some witnessBoughtRow :=
  ⟨rfl, sync_status_ratchet.1 witnessSyncDb (.ok [witnessRemoteOrder]) (fun _ => false)
    "O-1" witnessBoughtRow rfl rfl⟩

/-- A failure anywhere in the still-unprocessed part of the batch makes the
reconciliation loop abort. -/
theorem syncLoop_aborts (failsAt : Nat → Bool) :
    ∀ (orders : List RemoteOrder) (i : Nat) (db : OrdersDb) (ins upd : Nat),
      (∃ j, failsAt j = true ∧ i ≤ j ∧ j < i + orders.length) →
      syncLoop failsAt orders i db ins upd = .error () := by
  intro orders
  induction orders with
  | nil =>
    intro i db ins upd ⟨j, _, hj1, hj2⟩
    simp at hj2
    omega
  | cons o rest ih =>
    intro i db ins upd ⟨j, hjf, hj1, hj2⟩
    rw [syncLoop]
    by_cases hf : failsAt i
    · simp [hf]
    · have hji : i ≠ j := fun h => by rw [← h] at hjf; exact absurd hjf (by simp [hf])
      have hnext : ∃ j, failsAt j = true ∧ i + 1 ≤ j ∧ j < (i + 1) + rest.length := by
        refine ⟨j, hjf, by omega, by simp at hj2; omega⟩
      simp only [hf, if_false, Bool.false_eq_true]
      rcases htag : (upsertOrder db o).2 with _ | b
      · exact ih (i + 1) _ ins upd hnext
      · cases b
        · exact ih (i + 1) _ ins (upd + 1) hnext
        · exact ih (i + 1) _ (ins + 1) upd hnext

/-- C8: synchronization is all-or-nothing — if reconciling any order of the
fetched batch fails, the transaction is rolled back: the endpoint answers the
sync-failure response and the stored orders table is exactly as before. -/
theorem sync_all_or_nothing (db : OrdersDb) (orders : List RemoteOrder)
    (failsAt : Nat → Bool) (h : ∃ j, j < orders.length ∧ failsAt j = true) :
    syncOrdersEndpoint db (.ok orders) failsAt =
      (.errResp "Failed to sync orders from Amazon.", db) := by
  obtain ⟨j, hj, hjf⟩ := h
  unfold syncOrdersEndpoint
  dsimp only
  rw [syncLoop_aborts failsAt orders 0 db 0 0 ⟨j, hjf, by omega, by omega⟩]

/-- Witness for the C8 theorem: a single-order batch whose only upsert throws
leaves the table untouched. -/
theorem sync_all_or_nothing_witness :
    (∃ j, j < [witnessRemoteOrder].length ∧ (fun _ => true : Nat → Bool) j = true) ∧
    syncOrdersEndpoint witnessSyncDb (.ok [witnessRemoteOrder]) (fun _ => true) =
      (.errResp "Failed to sync orders from Amazon.", witnessSyncDb) :=
  ⟨⟨0, by decide, rfl⟩,
   sync_all_or_nothing witnessSyncDb [witnessRemoteOrder] (fun _ => true) ⟨0, by decide, rfl⟩⟩

/-! ### Injector and validator lemmas -/

/-- When pre-validation rejects the markup, the injector fails and echoes the
input unchanged. -/
theorem inject_of_invalid (cfgX cfgY : Nat) (z sku : Str) (qty : Int) (opts : InjectOptions)
    (hok : (validateZpl z).ok = false) :
    (injectSkuToZpl cfgX cfgY z sku qty opts).success = false ∧
    (injectSkuToZpl cfgX cfgY z sku qty opts).zpl = z := by
  unfold injectSkuToZpl
  simp [hok]

/-- The coercion `coerceOverride` never yields a negative coordinate. -/
theorem coerceOverride_nonneg (v : OverrideVal) (n : Int) (h : coerceOverride v = some n) :
    0 ≤ n := by
  cases v with
  | num m =>
    simp only [coerceOverride] at h
    split at h
    · simp only [Option.some.injEq] at h
      omega
    · simp at h
  | str s =>
    simp only [coerceOverride] at h
    split at h
    · simp at h
    · split at h
      · split at h
        · simp only [Option.some.injEq] at h
          omega
        · simp at h
      · simp at h
  | undef => simp [coerceOverride] at h

/-- A resolved injection coordinate (override or configured default) is
non-negative. -/
theorem coerce_getD_nonneg (v : OverrideVal) (c : Nat) :
    0 ≤ (coerceOverride v).getD (c : Int) := by
  cases hv : coerceOverride v with
  | none => simp
  | some n => simpa using coerceOverride_nonneg v n hv

/-- C7: injector failure atomicity — every failure result of the injector
carries the original markup byte for byte together with a reason, on all
failure paths (pre-validation, coordinates, width bound, length bound,
post-injection validation); in particular a label declaring print width 800
with injection x-override 500 always fails (500 + 700 > 800) with the
untouched original markup. -/
theorem inject_failure_atomicity :
    (∀ (cfgX cfgY : Nat) (z sku : Str) (qty : Int) (opts : InjectOptions),
      (injectSkuToZpl cfgX cfgY z sku qty opts).success = false →
      (injectSkuToZpl cfgX cfgY z sku qty opts).zpl = z ∧
      (injectSkuToZpl cfgX cfgY z sku qty opts).error.isSome = true) ∧
    (∀ (cfgX cfgY : Nat) (z sku : Str) (qty : Int) (y : OverrideVal) (dr : Bool),
      (validateZpl z).meta.printWidth = some 800 →
      (injectSkuToZpl cfgX cfgY z sku qty { x := .num 500, y := y, dryRun := dr }).success = false ∧
      (injectSkuToZpl cfgX cfgY z sku qty { x := .num 500, y := y, dryRun := dr }).zpl = z) := by
  constructor
  · intro cfgX cfgY z sku qty opts
    unfold injectSkuToZpl
    by_cases h1 : (validateZpl z).ok
    case neg => simp [h1]
    case pos =>
      simp only [h1, Bool.not_true]
      repeat' split
      all_goals intro h
      all_goals first
        | exact ⟨rfl, rfl⟩
        | simp at h
  · intro cfgX cfgY z sku qty y dr hpw
    by_cases hok : (validateZpl z).ok
    · have hx : coerceOverride (OverrideVal.num 500) = some 500 := by decide
      unfold injectSkuToZpl
      simp only [hok, hpw, hx]
      norm_num
      rw [if_neg (not_lt.mpr (coerce_getD_nonneg y cfgY))]
      rw [if_pos (by norm_num [ZPL_INJECT_BOX_WIDTH])]
      exact ⟨rfl, rfl⟩
    · exact inject_of_invalid cfgX cfgY z sku qty _ (by simpa using hok)

/-- Witness for the C7 theorem: a concrete 800-dot-wide label with the
x-override 500. -/
theorem inject_failure_atomicity_witness :
    (validateZpl "^XA^PW800^XZ".toList).meta.printWidth = some 800 ∧
    (injectSkuToZpl 50 1100 "^XA^PW800^XZ".toList "SKU1".toList 2
      { x := .num 500, y := .undef, dryRun := false }).success = false ∧
    (injectSkuToZpl 50 1100 "^XA^PW800^XZ".toList "SKU1".toList 2
      { x := .num 500, y := .undef, dryRun := false }).zpl = "^XA^PW800^XZ".toList :=
  ⟨by decide,
   inject_failure_atomicity.2 50 1100 "^XA^PW800^XZ".toList "SKU1".toList 2 .undef false
     (by decide)⟩

/-- C5: a non-blank markup missing the start marker or the end marker is
rejected by the validator (`ok = false`) with the corresponding fatal message
in its error list, and the injector refuses it, returning failure with the
markup unchanged; moreover, for every input, `ok` is true exactly when the
fatal-error list is empty (warnings never affect `ok`). -/
theorem validator_fatals_and_injector_refusal :
    (∀ z : Str, isBlank z = false → jsIndexOf z xaMarker = -1 →
      (validateZpl z).ok = false ∧
      "Missing ^XA start marker." ∈ (validateZpl z).errors ∧
      ∀ (cfgX cfgY : Nat) (sku : Str) (qty : Int) (opts : InjectOptions),
        (injectSkuToZpl cfgX cfgY z sku qty opts).success = false ∧
        (injectSkuToZpl cfgX cfgY z sku qty opts).zpl = z) ∧
    (∀ z : Str, isBlank z = false → jsLastIndexOf z xzMarker = -1 →
      (validateZpl z).ok = false ∧
      "Missing ^XZ end marker." ∈ (validateZpl z).errors ∧
      ∀ (cfgX cfgY : Nat) (sku : Str) (qty : Int) (opts : InjectOptions),
        (injectSkuToZpl cfgX cfgY z sku qty opts).success = false ∧
        (injectSkuToZpl cfgX cfgY z sku qty opts).zpl = z) ∧
    (∀ z : Str, (validateZpl z).ok = true ↔ (validateZpl z).errors = []) := by
  refine ⟨?_, ?_, ?_⟩
  · intro z hb hxa
    have hok : (validateZpl z).ok = false := by
      unfold validateZpl
      simp [hb, hxa]
    have hmem : "Missing ^XA start marker." ∈ (validateZpl z).errors := by
      unfold validateZpl
      simp [hb, hxa]
    exact ⟨hok, hmem, fun cfgX cfgY sku qty opts => inject_of_invalid cfgX cfgY z sku qty opts hok⟩
  · intro z hb hxz
    have hok : (validateZpl z).ok = false := by
      unfold validateZpl
      simp [hb, hxz]
    have hmem : "Missing ^XZ end marker." ∈ (validateZpl z).errors := by
      unfold validateZpl
      simp [hb, hxz]
    exact ⟨hok, hmem, fun cfgX cfgY sku qty opts => inject_of_invalid cfgX cfgY z sku qty opts hok⟩
  · intro z
    unfold validateZpl
    split <;> simp [List.isEmpty_iff]

/-- Witness for the C5 theorem at a concrete markup missing its start
marker. -/
theorem validator_fatals_and_injector_refusal_witness :
    isBlank "no start ^XZ".toList = false ∧
    jsIndexOf "no start ^XZ".toList xaMarker = -1 ∧
    (validateZpl "no start ^XZ".toList).ok = false ∧
    "Missing ^XA start marker." ∈ (validateZpl "no start ^XZ".toList).errors ∧
    (injectSkuToZpl 50 1100 "no start ^XZ".toList "S".toList 1
      { x := .undef, y := .undef, dryRun := false }).success = false ∧
    (injectSkuToZpl 50 1100 "no start ^XZ".toList "S".toList 1
      { x := .undef, y := .undef, dryRun := false }).zpl = "no start ^XZ".toList := by
  have h := validator_fatals_and_injector_refusal.1 "no start ^XZ".toList
    (by decide) (by decide)
  exact ⟨by decide, by decide, h.1, h.2.1,
    (h.2.2 50 1100 "S".toList 1 { x := .undef, y := .undef, dryRun := false }).1,
    (h.2.2 50 1100 "S".toList 1 { x := .undef, y := .undef, dryRun := false }).2⟩

/-- With the dry-run flag set, the injector always returns the original
markup unchanged (on success and on failure alike). -/
theorem inject_dryRun_zpl (cfgX cfgY : Nat) (z sku : Str) (qty : Int)
    (opts : InjectOptions) (hdr : opts.dryRun = true) :
    (injectSkuToZpl cfgX cfgY z sku qty opts).zpl = z := by
  unfold injectSkuToZpl
  by_cases h1 : (validateZpl z).ok
  case neg => simp [h1]
  case pos =>
    simp only [h1, Bool.not_true]
    repeat' split
    all_goals simp_all

/-! ### Buy-label endpoint lemmas -/

/-- C10: dry-run still commits order state — a single-order purchase with the
dry-run flag set whose validation, lookup, remote purchase and injection
checks all succeed echoes the original (uninjected) markup, yet still
persists the status transition to `LabelBought`, the tracking id, and that
original markup on the order row. -/
theorem buy_label_dry_run_commits
    (cfgX cfgY : Nat) (db : OrdersDb) (defaults : DefaultsDb)
    (body : LabelRequestBody) (p : PurchaseOut) (oid : String) (row : OrderRow)
    (hid : body.amazon_order_id = some oid)
    (hdb : db oid = some row)
    (hval : (validateLabelRequest
      { amazon_order_id := body.amazon_order_id, amazon_order_ids := none
        weight := body.weight, dimensions := body.dimensions }).ok = true)
    (hdry : body.zpl_inject_dry_run = true)
    (hinj : (injectSkuToZpl cfgX cfgY p.originalZpl
        (jsOrStr p.sku (row.items.headD defaultFirstItem).sku)
        (jsOrInt p.quantity (row.items.headD defaultFirstItem).quantity)
        (getZplInjectOptions body)).success = true) :
    (buyLabelEndpoint cfgX cfgY db defaults body (.ok p)).1 =
      .success p.originalZpl (jsOrNull p.trackingId) true ∧
    (buyLabelEndpoint cfgX cfgY db defaults body (.ok p)).2.1 oid =
      some { row with status := "LabelBought"
                      tracking_id := jsOrNull p.trackingId
                      label_zpl := some p.originalZpl } := by
  have hopts : (getZplInjectOptions body).dryRun = true := hdry
  have hzpl : (injectSkuToZpl cfgX cfgY p.originalZpl
      (jsOrStr p.sku (row.items.headD defaultFirstItem).sku)
      (jsOrInt p.quantity (row.items.headD defaultFirstItem).quantity)
      (getZplInjectOptions body)).zpl = p.originalZpl :=
    inject_dryRun_zpl cfgX cfgY p.originalZpl _ _ _ hopts
  unfold buyLabelEndpoint
  rw [hid] at hval
  rw [hid]
  simp only [hval, Bool.not_true, Option.some_bind, hdb, hinj, hzpl, hopts,
    Bool.false_eq_true, if_false]
  refine ⟨trivial, ?_⟩
  simp

/-- Concrete stored row for the C10 witness. -/
def witnessUnshippedRow : OrderRow :=
  { purchase_date := some "2024-03-03", customer_name := "Bob"
    shipping_address := "addr2", items := [{ sku := "SKU-A".toList, quantity := 2 }]
    is_prime := true, status := "Unshipped"
    tracking_id := none, label_zpl := none }

/-- Concrete stored table for the C10 witness. -/
def witnessBuyDb : OrdersDb :=
  fun k => if k = "O-2" then some witnessUnshippedRow else none

/-- Concrete dry-run request body for the C10 witness. -/
def witnessDryRunBody : LabelRequestBody :=
  { amazon_order_id := some "O-2", amazon_order_ids := none
    weight := some { value := 10, unit := "oz" }
    dimensions := some { length := 10, width := 6, height := 2, unit := "in" }
    zpl_inject_x := .undef, zpl_inject_y := .undef, zpl_inject_dry_run := true }

/-- Concrete remote purchase outcome for the C10 witness. -/
def witnessPurchaseOut : PurchaseOut :=
  { originalZpl := "^XA^FS^XZ".toList, sku := some "SKU-A".toList
    quantity := some 2, trackingId := some "TRK-9" }

/-- The witness request body passes `validateLabelRequest`. -/
theorem witnessDryRunBody_valid :
    (validateLabelRequest
      { amazon_order_id := witnessDryRunBody.amazon_order_id, amazon_order_ids := none
        weight := witnessDryRunBody.weight
        dimensions := witnessDryRunBody.dimensions }).ok = true := by
  have h1 : strBlank "O-2" = false := by decide
  have h2 : strTrim "oz" = "oz" := by decide
  have h3 : strTrim "in" = "in" := by decide
  have h4 : ("in" : String) ≠ "cm" := by decide
  norm_num [validateLabelRequest, witnessDryRunBody, h1, h2, h3, h4,
    toPounds, toInches, computeDimensionalWeightLb, WEIGHT_UNITS, DIMENSION_UNITS,
    MAX_WEIGHT_LB, MIN_DIMENSION_IN, MAX_DIMENSION_IN]

/-- Witness for the C10 theorem at a concrete dry-run purchase. -/
theorem buy_label_dry_run_commits_witness :
    witnessDryRunBody.zpl_inject_dry_run = true ∧
    (buyLabelEndpoint 50 1100 witnessBuyDb (fun _ => none) witnessDryRunBody
      (.ok witnessPurchaseOut)).1 =
      .success witnessPurchaseOut.originalZpl (some "TRK-9") true ∧
    (buyLabelEndpoint 50 1100 witnessBuyDb (fun _ => none) witnessDryRunBody
      (.ok witnessPurchaseOut)).2.1 "O-2" =
      some { witnessUnshippedRow with
             status := "LabelBought", tracking_id := some "TRK-9"
             label_zpl := some witnessPurchaseOut.originalZpl } := by
  have h := buy_label_dry_run_commits 50 1100 witnessBuyDb (fun _ => none)
    witnessDryRunBody witnessPurchaseOut "O-2" witnessUnshippedRow
    rfl rfl witnessDryRunBody_valid rfl (by decide)
  exact ⟨rfl, by simpa using h.1, by simpa using h.2⟩

/-! ### Bulk-purchase lemmas -/

/-- A markup the validator accepts is not blank. -/
theorem valid_not_blank (z : Str) (h : (validateZpl z).ok = true) : isBlank z = false := by
  by_cases hb : isBlank z
  · rw [validateZpl, if_pos hb] at h
    simp at h
  · simpa using hb

/-- A successful injection result always carries a non-empty markup. -/
theorem inject_success_nonempty (cfgX cfgY : Nat) (z sku : Str) (qty : Int)
    (opts : InjectOptions) (h : (injectSkuToZpl cfgX cfgY z sku qty opts).success = true) :
    (injectSkuToZpl cfgX cfgY z sku qty opts).zpl.isEmpty = false := by
  by_cases hok : (validateZpl z).ok
  case neg =>
    rw [injectSkuToZpl] at h
    simp [hok] at h
  case pos =>
    have hz : z.isEmpty = false := by
      have hb := valid_not_blank z hok
      cases z with
      | nil => simp [isBlank] at hb
      | cons c t => simp
    rw [injectSkuToZpl] at h ⊢
    simp only [hok, Bool.not_true] at h ⊢
    repeat' split at h <;> first
      | simp at h
      | skip
    all_goals
      repeat' split
    all_goals simp_all [List.isEmpty_iff]

/-- One successful bulk iteration, spelled out. -/
theorem bulkStep_success (cfgX cfgY : Nat) (purchase : String → Except String PurchaseOut)
    (opts : InjectOptions) (st : BulkState) (oid : String) (row : OrderRow) (p : PurchaseOut)
    (hrow : st.db oid = some row) (hp : purchase oid = .ok p)
    (hinj : (injectSkuToZpl cfgX cfgY p.originalZpl
        (jsOrStr p.sku (row.items.headD defaultFirstItem).sku)
        (jsOrInt p.quantity (row.items.headD defaultFirstItem).quantity) opts).success = true) :
    bulkStep cfgX cfgY purchase opts st oid =
      { succeeded := st.succeeded ++ [{ amazon_order_id := oid, trackingId := jsOrNull p.trackingId }]
        failed := st.failed
        combinedZpl :=
          if st.combinedZpl.isEmpty then
            (injectSkuToZpl cfgX cfgY p.originalZpl
              (jsOrStr p.sku (row.items.headD defaultFirstItem).sku)
              (jsOrInt p.quantity (row.items.headD defaultFirstItem).quantity) opts).zpl
          else st.combinedZpl ++ ['\n'] ++
            (injectSkuToZpl cfgX cfgY p.originalZpl
              (jsOrStr p.sku (row.items.headD defaultFirstItem).sku)
              (jsOrInt p.quantity (row.items.headD defaultFirstItem).quantity) opts).zpl
        db := fun k =>
          if k = oid then
            (st.db k).map fun r =>
              { r with status := "LabelBought", tracking_id := jsOrNull p.trackingId
                       label_zpl := some (injectSkuToZpl cfgX cfgY p.originalZpl
                         (jsOrStr p.sku (row.items.headD defaultFirstItem).sku)
                         (jsOrInt p.quantity (row.items.headD defaultFirstItem).quantity) opts).zpl }
          else st.db k } := by
  unfold bulkStep
  rw [hrow, hp]
  have hinj' := hinj
  rw [List.headD_eq_head?_getD] at hinj'
  simp [hinj']

/-- One bulk iteration on a missing order id, spelled out. -/
theorem bulkStep_missing (cfgX cfgY : Nat) (purchase : String → Except String PurchaseOut)
    (opts : InjectOptions) (st : BulkState) (oid : String) (h : st.db oid = none) :
    bulkStep cfgX cfgY purchase opts st oid =
      { st with failed := st.failed ++
          [{ amazon_order_id := oid, error := "Order not found in local database." }] } := by
  unfold bulkStep
  rw [h]

/-- C2: bulk purchase partial-failure aggregation — over five order ids where
only the third is absent from the local store and the other four succeed end
to end, the report has `summary.total = 5`, `summary.failed = 1`,
`summary.succeeded = 4`, the per-id entries attribute the one failure to the
third id, and the combined document is the four produced label markups joined
by single newlines in the input order; the one failure does not abort the
other ids. -/
theorem bulk_partial_failure_aggregation
    (cfgX cfgY : Nat) (db : OrdersDb) (defaults : DefaultsDb)
    (body : LabelRequestBody) (purchase : String → Except String PurchaseOut)
    (o1 o2 o3 o4 o5 : String) (r1 r2 r4 r5 : OrderRow) (p1 p2 p4 p5 : PurchaseOut)
    (hids : body.amazon_order_ids = some [o1, o2, o3, o4, o5])
    (hval : (validateLabelRequest
      { amazon_order_id := none, amazon_order_ids := body.amazon_order_ids
        weight := body.weight, dimensions := body.dimensions }).ok = true)
    (h12 : o1 ≠ o2) (h14 : o1 ≠ o4) (h15 : o1 ≠ o5)
    (h24 : o2 ≠ o4) (h25 : o2 ≠ o5) (h45 : o4 ≠ o5)
    (hd1 : db o1 = some r1) (hd2 : db o2 = some r2) (hd3 : db o3 = none)
    (hd4 : db o4 = some r4) (hd5 : db o5 = some r5)
    (hp1 : purchase o1 = .ok p1) (hp2 : purchase o2 = .ok p2)
    (hp4 : purchase o4 = .ok p4) (hp5 : purchase o5 = .ok p5)
    (hi1 : (injectSkuToZpl cfgX cfgY p1.originalZpl
        (jsOrStr p1.sku (r1.items.headD defaultFirstItem).sku)
        (jsOrInt p1.quantity (r1.items.headD defaultFirstItem).quantity)
        (getZplInjectOptions body)).success = true)
    (hi2 : (injectSkuToZpl cfgX cfgY p2.originalZpl
        (jsOrStr p2.sku (r2.items.headD defaultFirstItem).sku)
        (jsOrInt p2.quantity (r2.items.headD defaultFirstItem).quantity)
        (getZplInjectOptions body)).success = true)
    (hi4 : (injectSkuToZpl cfgX cfgY p4.originalZpl
        (jsOrStr p4.sku (r4.items.headD defaultFirstItem).sku)
        (jsOrInt p4.quantity (r4.items.headD defaultFirstItem).quantity)
        (getZplInjectOptions body)).success = true)
    (hi5 : (injectSkuToZpl cfgX cfgY p5.originalZpl
        (jsOrStr p5.sku (r5.items.headD defaultFirstItem).sku)
        (jsOrInt p5.quantity (r5.items.headD defaultFirstItem).quantity)
        (getZplInjectOptions body)).success = true) :
    (bulkBuyLabelsEndpoint cfgX cfgY db defaults body purchase).1 =
      .okResp
        [{ amazon_order_id := o1, trackingId := jsOrNull p1.trackingId },
         { amazon_order_id := o2, trackingId := jsOrNull p2.trackingId },
         { amazon_order_id := o4, trackingId := jsOrNull p4.trackingId },
         { amazon_order_id := o5, trackingId := jsOrNull p5.trackingId }]
        [{ amazon_order_id := o3, error := "Order not found in local database." }]
        ((injectSkuToZpl cfgX cfgY p1.originalZpl
            (jsOrStr p1.sku (r1.items.headD defaultFirstItem).sku)
            (jsOrInt p1.quantity (r1.items.headD defaultFirstItem).quantity)
            (getZplInjectOptions body)).zpl ++ ['\n'] ++
         (injectSkuToZpl cfgX cfgY p2.originalZpl
            (jsOrStr p2.sku (r2.items.headD defaultFirstItem).sku)
            (jsOrInt p2.quantity (r2.items.headD defaultFirstItem).quantity)
            (getZplInjectOptions body)).zpl ++ ['\n'] ++
         (injectSkuToZpl cfgX cfgY p4.originalZpl
            (jsOrStr p4.sku (r4.items.headD defaultFirstItem).sku)
            (jsOrInt p4.quantity (r4.items.headD defaultFirstItem).quantity)
            (getZplInjectOptions body)).zpl ++ ['\n'] ++
         (injectSkuToZpl cfgX cfgY p5.originalZpl
            (jsOrStr p5.sku (r5.items.headD defaultFirstItem).sku)
            (jsOrInt p5.quantity (r5.items.headD defaultFirstItem).quantity)
            (getZplInjectOptions body)).zpl)
        (getZplInjectOptions body).dryRun
        { total := 5, succeeded := 4, failed := 1 } := by
  have h21 : ¬ (o2 = o1) := fun h => h12 h.symm
  have h31 : ¬ (o3 = o1) := fun h => by rw [h, hd1] at hd3; cases hd3
  have h32 : ¬ (o3 = o2) := fun h => by rw [h, hd2] at hd3; cases hd3
  have h41 : ¬ (o4 = o1) := fun h => h14 h.symm
  have h42 : ¬ (o4 = o2) := fun h => h24 h.symm
  have h43 : ¬ (o4 = o3) := fun h => by rw [h, hd3] at hd4; cases hd4
  have h51 : ¬ (o5 = o1) := fun h => h15 h.symm
  have h52 : ¬ (o5 = o2) := fun h => h25 h.symm
  have h53 : ¬ (o5 = o3) := fun h => by rw [h, hd3] at hd5; cases hd5
  have h54 : ¬ (o5 = o4) := fun h => h45 h.symm
  have hne1 := inject_success_nonempty cfgX cfgY p1.originalZpl _ _ _ hi1
  have hne2 := inject_success_nonempty cfgX cfgY p2.originalZpl _ _ _ hi2
  have hne4 := inject_success_nonempty cfgX cfgY p4.originalZpl _ _ _ hi4
  have hne1' : (injectSkuToZpl cfgX cfgY p1.originalZpl
      (jsOrStr p1.sku (r1.items.headD defaultFirstItem).sku)
      (jsOrInt p1.quantity (r1.items.headD defaultFirstItem).quantity)
      (getZplInjectOptions body)).zpl ≠ [] := by
    intro h
    rw [h] at hne1
    simp at hne1
  have hne2' : (injectSkuToZpl cfgX cfgY p2.originalZpl
      (jsOrStr p2.sku (r2.items.headD defaultFirstItem).sku)
      (jsOrInt p2.quantity (r2.items.headD defaultFirstItem).quantity)
      (getZplInjectOptions body)).zpl ≠ [] := by
    intro h
    rw [h] at hne2
    simp at hne2
  have hne4' : (injectSkuToZpl cfgX cfgY p4.originalZpl
      (jsOrStr p4.sku (r4.items.headD defaultFirstItem).sku)
      (jsOrInt p4.quantity (r4.items.headD defaultFirstItem).quantity)
      (getZplInjectOptions body)).zpl ≠ [] := by
    intro h
    rw [h] at hne4
    simp at hne4
  simp only [List.headD_eq_head?_getD] at hne1' hne2' hne4'
  unfold bulkBuyLabelsEndpoint
  rw [hids] at hval ⊢
  simp only [hval, Bool.not_true, Bool.false_eq_true, if_false, Option.getD_some,
    List.foldl_cons, List.foldl_nil]
  rw [bulkStep_success cfgX cfgY purchase (getZplInjectOptions body) _ o1 r1 p1 hd1 hp1 hi1]
  rw [bulkStep_success cfgX cfgY purchase (getZplInjectOptions body) _ o2 r2 p2
    (by simpa [h21] using hd2) hp2 hi2]
  rw [bulkStep_missing cfgX cfgY purchase (getZplInjectOptions body) _ o3
    (by simpa [h31, h32] using hd3)]
  rw [bulkStep_success cfgX cfgY purchase (getZplInjectOptions body) _ o4 r4 p4
    (by simpa [h41, h42] using hd4) hp4 hi4]
  rw [bulkStep_success cfgX cfgY purchase (getZplInjectOptions body) _ o5 r5 p5
    (by simpa [h51, h52, h54] using hd5) hp5 hi5]
  simp [hne1', hne2', hne4', List.append_assoc]

/-- Concrete stored row shared by the four present orders of the C2 witness. -/
def witnessBulkRow : OrderRow :=
  { purchase_date := none, customer_name := "Carol", shipping_address := "addr3"
    items := [{ sku := "SKU-B".toList, quantity := 1 }], is_prime := true
    status := "Unshipped", tracking_id := none, label_zpl := none }

/-- Concrete stored table of the C2 witness (the third id is absent). -/
def witnessBulkDb : OrdersDb :=
  fun k => if k = "B1" ∨ k = "B2" ∨ k = "B4" ∨ k = "B5" then some witnessBulkRow else none

/-- Concrete bulk request body of the C2 witness. -/
def witnessBulkBody : LabelRequestBody :=
  { amazon_order_id := none, amazon_order_ids := some ["B1", "B2", "B3", "B4", "B5"]
    weight := some { value := 10, unit := "oz" }
    dimensions := some { length := 10, width := 6, height := 2, unit := "in" }
    zpl_inject_x := .undef, zpl_inject_y := .undef, zpl_inject_dry_run := false }

/-- Concrete remote purchase outcome of the C2 witness. -/
def witnessBulkPO : PurchaseOut :=
  { originalZpl := "^XA^FS^XZ".toList, sku := none, quantity := none
    trackingId := some "TRK" }

/-- Concrete purchase oracle of the C2 witness. -/
def witnessBulkPurchase : String → Except String PurchaseOut :=
  fun _ => .ok witnessBulkPO

/-- The C2 witness request body passes `validateLabelRequest`. -/
theorem witnessBulkBody_valid :
    (validateLabelRequest
      { amazon_order_id := none, amazon_order_ids := witnessBulkBody.amazon_order_ids
        weight := witnessBulkBody.weight
        dimensions := witnessBulkBody.dimensions }).ok = true := by
  have hb1 : strBlank "B1" = false := by decide
  have hb2 : strBlank "B2" = false := by decide
  have hb3 : strBlank "B3" = false := by decide
  have hb4 : strBlank "B4" = false := by decide
  have hb5 : strBlank "B5" = false := by decide
  have h2 : strTrim "oz" = "oz" := by decide
  have h3 : strTrim "in" = "in" := by decide
  have h4 : ("in" : String) ≠ "cm" := by decide
  norm_num [validateLabelRequest, witnessBulkBody, hb1, hb2, hb3, hb4, hb5, h2, h3, h4,
    toPounds, toInches, computeDimensionalWeightLb, WEIGHT_UNITS, DIMENSION_UNITS,
    MAX_WEIGHT_LB, MIN_DIMENSION_IN, MAX_DIMENSION_IN, MAX_BULK_IDS, List.enum]

set_option maxRecDepth 4000 in
/-- Witness for the C2 theorem at a concrete five-id batch whose third id is
missing from the store. -/
theorem bulk_partial_failure_aggregation_witness :
    witnessBulkDb "B3" = none ∧
    (bulkBuyLabelsEndpoint 50 1100 witnessBulkDb (fun _ => none) witnessBulkBody
        witnessBulkPurchase).1 =
      .okResp
        [{ amazon_order_id := "B1", trackingId := jsOrNull witnessBulkPO.trackingId },
         { amazon_order_id := "B2", trackingId := jsOrNull witnessBulkPO.trackingId },
         { amazon_order_id := "B4", trackingId := jsOrNull witnessBulkPO.trackingId },
         { amazon_order_id := "B5", trackingId := jsOrNull witnessBulkPO.trackingId }]
        [{ amazon_order_id := "B3", error := "Order not found in local database." }]
        ((injectSkuToZpl 50 1100 witnessBulkPO.originalZpl
            (jsOrStr witnessBulkPO.sku (witnessBulkRow.items.headD defaultFirstItem).sku)
            (jsOrInt witnessBulkPO.quantity (witnessBulkRow.items.headD defaultFirstItem).quantity)
            (getZplInjectOptions witnessBulkBody)).zpl ++ ['\n'] ++
         (injectSkuToZpl 50 1100 witnessBulkPO.originalZpl
            (jsOrStr witnessBulkPO.sku (witnessBulkRow.items.headD defaultFirstItem).sku)
            (jsOrInt witnessBulkPO.quantity (witnessBulkRow.items.headD defaultFirstItem).quantity)
            (getZplInjectOptions witnessBulkBody)).zpl ++ ['\n'] ++
         (injectSkuToZpl 50 1100 witnessBulkPO.originalZpl
            (jsOrStr witnessBulkPO.sku (witnessBulkRow.items.headD defaultFirstItem).sku)
            (jsOrInt witnessBulkPO.quantity (witnessBulkRow.items.headD defaultFirstItem).quantity)
            (getZplInjectOptions witnessBulkBody)).zpl ++ ['\n'] ++
         (injectSkuToZpl 50 1100 witnessBulkPO.originalZpl
            (jsOrStr witnessBulkPO.sku (witnessBulkRow.items.headD defaultFirstItem).sku)
            (jsOrInt witnessBulkPO.quantity (witnessBulkRow.items.headD defaultFirstItem).quantity)
            (getZplInjectOptions witnessBulkBody)).zpl)
        (getZplInjectOptions witnessBulkBody).dryRun
        { total := 5, succeeded := 4, failed := 1 } :=
  ⟨rfl,
   bulk_partial_failure_aggregation 50 1100 witnessBulkDb (fun _ => none) witnessBulkBody
     witnessBulkPurchase "B1" "B2" "B3" "B4" "B5"
     witnessBulkRow witnessBulkRow witnessBulkRow witnessBulkRow
     witnessBulkPO witnessBulkPO witnessBulkPO witnessBulkPO
     rfl witnessBulkBody_valid
     (by decide) (by decide) (by decide) (by decide) (by decide) (by decide)
     (by decide) (by decide) (by decide) (by decide) (by decide)
     rfl rfl rfl rfl
     (by decide) (by decide) (by decide) (by decide)⟩

/-- Concrete single-id bulk request body for the C9 counterexample. -/
def c9Body : LabelRequestBody :=
  { amazon_order_id := none, amazon_order_ids := some ["B1"]
    weight := some { value := 10, unit := "oz" }
    dimensions := some { length := 10, width := 6, height := 2, unit := "in" }
    zpl_inject_x := .undef, zpl_inject_y := .undef, zpl_inject_dry_run := false }

/-- The C9 counterexample request body passes `validateLabelRequest`. -/
theorem c9Body_valid :
    (validateLabelRequest
      { amazon_order_id := none, amazon_order_ids := c9Body.amazon_order_ids
        weight := c9Body.weight, dimensions := c9Body.dimensions }).ok = true := by
  have hb1 : strBlank "B1" = false := by decide
  have h2 : strTrim "oz" = "oz" := by decide
  have h3 : strTrim "in" = "in" := by decide
  have h4 : ("in" : String) ≠ "cm" := by decide
  norm_num [validateLabelRequest, c9Body, hb1, h2, h3, h4,
    toPounds, toInches, computeDimensionalWeightLb, WEIGHT_UNITS, DIMENSION_UNITS,
    MAX_WEIGHT_LB, MIN_DIMENSION_IN, MAX_DIMENSION_IN, MAX_BULK_IDS, List.enum]

set_option maxRecDepth 4000 in
/-- C9 counterexample: in a bulk purchase, an order that is successfully
purchased and whose line items have exactly one distinct sku does NOT get its
ShippingDefaults record upserted — the bulk response reports the order as
succeeded, yet the shipping-defaults table still has no entry for that sku
(the single-order flow would have written the request's weight and
dimensions). -/
theorem bulk_no_defaults_upsert_counterexample :
    distinctSkus witnessBulkRow.items = ["SKU-B".toList] ∧
    (bulkBuyLabelsEndpoint 50 1100 witnessBulkDb (fun _ => none) c9Body
        witnessBulkPurchase).1 =
      .okResp
        [{ amazon_order_id := "B1", trackingId := jsOrNull witnessBulkPO.trackingId }]
        []
        (injectSkuToZpl 50 1100 witnessBulkPO.originalZpl
          (jsOrStr witnessBulkPO.sku (witnessBulkRow.items.headD defaultFirstItem).sku)
          (jsOrInt witnessBulkPO.quantity (witnessBulkRow.items.headD defaultFirstItem).quantity)
          (getZplInjectOptions c9Body)).zpl
        (getZplInjectOptions c9Body).dryRun
        { total := 1, succeeded := 1, failed := 0 } ∧
    (bulkBuyLabelsEndpoint 50 1100 witnessBulkDb (fun _ => none) c9Body
        witnessBulkPurchase).2.2 ("SKU-B".toList) = none := by
  refine ⟨by decide, ?_, ?_⟩
  · have hval := c9Body_valid
    unfold bulkBuyLabelsEndpoint
    simp only [show c9Body.amazon_order_ids = some ["B1"] from rfl] at hval ⊢
    simp only [hval, Bool.not_true, Bool.false_eq_true, if_false, Option.getD_some,
      List.foldl_cons, List.foldl_nil]
    rw [bulkStep_success 50 1100 witnessBulkPurchase (getZplInjectOptions c9Body) _ "B1"
      witnessBulkRow witnessBulkPO (by decide) rfl (by decide)]
    simp
  · unfold bulkBuyLabelsEndpoint
    dsimp only
    split <;> rfl

/-- C9 amended: the bulk purchase endpoint never touches the ShippingDefaults
store — for every request and every oracle outcome, the shipping-defaults
table after a bulk run is exactly the table before it; only the single-order
flow performs the opportunistic ShippingDefaults upsert. -/
theorem bulk_preserves_shipping_defaults
    (cfgX cfgY : Nat) (db : OrdersDb) (defaults : DefaultsDb)
    (body : LabelRequestBody) (purchase : String → Except String PurchaseOut) :
    (bulkBuyLabelsEndpoint cfgX cfgY db defaults body purchase).2.2 = defaults := by
  unfold bulkBuyLabelsEndpoint
  dsimp only
  split <;> rfl

/-! ### Occurrence-index lemmas for the C6 preservation proof -/

/-- Boolean prefix test versus the propositional prefix relation. -/
theorem isPrefixOf_eq_true_iff (p l : Str) : p.isPrefixOf l = true ↔ p <+: l :=
  List.isPrefixOf_iff_prefix

/-- If `p` occurs at position `i`, the first-occurrence scan finds an
occurrence no later than `i`. -/
theorem firstOccIdx_le (p : Str) :
    ∀ (s : Str) (i : Nat), p.isPrefixOf (s.drop i) = true →
      ∃ j, firstOccIdx p s = some j ∧ j ≤ i := by
  intro s
  induction s with
  | nil =>
    intro i h
    rw [List.drop_nil] at h
    exact ⟨0, by rw [firstOccIdx, if_pos h], Nat.zero_le i⟩
  | cons c t ih =>
    intro i h
    by_cases hp : p.isPrefixOf (c :: t) = true
    · exact ⟨0, by rw [firstOccIdx, if_pos hp], Nat.zero_le i⟩
    · cases i with
      | zero =>
        rw [List.drop_zero] at h
        exact absurd h hp
      | succ i' =>
        rw [List.drop_succ_cons] at h
        obtain ⟨j', hj', hle⟩ := ih i' h
        refine ⟨j' + 1, ?_, by omega⟩
        rw [firstOccIdx, if_neg hp, hj']
        rfl

/-- The first-occurrence index is an occurrence. -/
theorem firstOccIdx_spec (p : Str) :
    ∀ (s : Str) (j : Nat), firstOccIdx p s = some j →
      p.isPrefixOf (s.drop j) = true := by
  intro s
  induction s with
  | nil =>
    intro j h
    rw [firstOccIdx] at h
    split at h
    · cases h
      simpa using ‹p.isPrefixOf ([] : Str) = true›
    · cases h
  | cons c t ih =>
    intro j h
    rw [firstOccIdx] at h
    split at h
    · cases h
      simpa using ‹p.isPrefixOf (c :: t) = true›
    · cases hft : firstOccIdx p t with
      | none => rw [hft] at h; cases h
      | some j' =>
        rw [hft] at h
        cases h
        rw [List.drop_succ_cons]
        exact ih j' hft

/-- If a non-empty `p` occurs at position `i`, the last-occurrence scan finds
an occurrence no earlier than `i`. -/
theorem lastOccIdx_ge (p : Str) (hp : p ≠ []) :
    ∀ (s : Str) (i : Nat), p.isPrefixOf (s.drop i) = true →
      ∃ j, lastOccIdx p s = some j ∧ i ≤ j := by
  intro s
  induction s with
  | nil =>
    intro i h
    rw [List.drop_nil] at h
    exact absurd (by simpa using h) hp
  | cons c t ih =>
    intro i h
    cases hlt : lastOccIdx p t with
    | some j' =>
      refine ⟨j' + 1, by rw [lastOccIdx, hlt]; rfl, ?_⟩
      cases i with
      | zero => omega
      | succ i' =>
        rw [List.drop_succ_cons] at h
        obtain ⟨j'', hj'', hle⟩ := ih i' h
        rw [hlt] at hj''
        cases hj''
        omega
    | none =>
      cases i with
      | zero =>
        rw [List.drop_zero] at h
        refine ⟨0, ?_, Nat.le_refl 0⟩
        rw [lastOccIdx, hlt]
        show (if List.isPrefixOf p (c :: t) = true then some 0 else none) = some 0
        rw [if_pos h]
      | succ i' =>
        rw [List.drop_succ_cons] at h
        obtain ⟨j'', hj'', _⟩ := ih i' h
        rw [hlt] at hj''
        cases hj''

/-- The last-occurrence index is an occurrence. -/
theorem lastOccIdx_spec (p : Str) :
    ∀ (s : Str) (j : Nat), lastOccIdx p s = some j →
      p.isPrefixOf (s.drop j) = true := by
  intro s
  induction s with
  | nil =>
    intro j h
    rw [lastOccIdx] at h
    split at h
    · cases h
      simpa using ‹p.isPrefixOf ([] : Str) = true›
    · cases h
  | cons c t ih =>
    intro j h
    rw [lastOccIdx] at h
    cases hlt : lastOccIdx p t with
    | some j' =>
      rw [hlt] at h
      cases h
      rw [List.drop_succ_cons]
      exact ih j' hlt
    | none =>
      rw [hlt] at h
      dsimp at h
      split at h
      · cases h
        simpa using ‹p.isPrefixOf (c :: t) = true›
      · cases h

/-- A validated markup yields marker occurrence indices in order. -/
theorem validateZpl_ok_parts (z : Str) (h : (validateZpl z).ok = true) :
    ∃ s0 e0 : Nat, firstOccIdx xaMarker z = some s0 ∧ lastOccIdx xzMarker z = some e0 ∧
      s0 ≤ e0 := by
  have hb := valid_not_blank z h
  rw [validateZpl, if_neg (by simp [hb])] at h
  dsimp only at h
  rw [List.isEmpty_iff] at h
  rcases List.append_eq_nil.mp h with ⟨h12, h3⟩
  rcases List.append_eq_nil.mp h12 with ⟨h1, h2⟩
  have hc1 : ¬ ((jsIndexOf z xaMarker == -1) = true) := by
    intro hc
    rw [if_pos hc] at h1
    cases h1
  have hc2 : ¬ ((jsLastIndexOf z xzMarker == -1) = true) := by
    intro hc
    rw [if_pos hc] at h2
    cases h2
  cases hf : firstOccIdx xaMarker z with
  | none => exact absurd (by rw [jsIndexOf, hf]; rfl) hc1
  | some s0 =>
    cases hl : lastOccIdx xzMarker z with
    | none => exact absurd (by rw [jsLastIndexOf, hl]; rfl) hc2
    | some e0 =>
      refine ⟨s0, e0, rfl, rfl, ?_⟩
      have hi1 : jsIndexOf z xaMarker = (s0 : Int) := by rw [jsIndexOf, hf]
      have hi2 : jsLastIndexOf z xzMarker = (e0 : Int) := by rw [jsLastIndexOf, hl]
      by_contra hlt
      have hcond : (jsIndexOf z xaMarker != -1 && jsLastIndexOf z xzMarker != -1 &&
          decide (jsLastIndexOf z xzMarker < jsIndexOf z xaMarker)) = true := by
        rw [hi1, hi2]
        simp only [Bool.and_eq_true, bne_iff_ne, decide_eq_true_eq]
        refine ⟨⟨by omega, by omega⟩, by omega⟩
      rw [if_pos hcond] at h3
      simp at h3

/-- Two distinct markers cannot overlap: an `^XA` occurrence strictly
precedes an `^XZ` occurrence by at least the marker length. -/
theorem marker_gap (z : Str) (s0 e0 : Nat)
    (hf : xaMarker.isPrefixOf (z.drop s0) = true)
    (hl : xzMarker.isPrefixOf (z.drop e0) = true)
    (hle : s0 ≤ e0) : s0 + 3 ≤ e0 := by
  by_contra hlt
  push_neg at hlt
  rw [isPrefixOf_eq_true_iff] at hf hl
  obtain ⟨u, hu⟩ := hf
  obtain ⟨v, hv⟩ := hl
  have hdrop : z.drop e0 = (z.drop s0).drop (e0 - s0) := by
    rw [List.drop_drop]
    congr 1
    omega
  have key : xzMarker ++ v = (xaMarker ++ u).drop (e0 - s0) := by
    rw [hu, ← hdrop, hv]
  have h3 : e0 - s0 = 0 ∨ e0 - s0 = 1 ∨ e0 - s0 = 2 := by omega
  rcases h3 with h | h | h <;> rw [h] at key <;> simp [xaMarker, xzMarker] at key

/-- The end-marker index reported for a non-blank markup. -/
theorem validateZpl_endIndex (z : Str) (hb : isBlank z = false) :
    (validateZpl z).meta.endIndex = jsLastIndexOf z xzMarker := by
  rw [validateZpl, if_neg (by simp [hb])]

/-- Sufficient conditions for the validator to accept a markup. -/
theorem validateZpl_ok_of (m : Str) (s1 e1 : Nat)
    (hb : isBlank m = false)
    (hf : firstOccIdx xaMarker m = some s1)
    (hl : lastOccIdx xzMarker m = some e1)
    (hle : s1 ≤ e1) :
    (validateZpl m).ok = true := by
  have hi1 : jsIndexOf m xaMarker = (s1 : Int) := by rw [jsIndexOf, hf]
  have hi2 : jsLastIndexOf m xzMarker = (e1 : Int) := by rw [jsLastIndexOf, hl]
  rw [validateZpl, if_neg (by simp [hb])]
  dsimp only
  rw [List.isEmpty_iff, hi1, hi2]
  refine List.append_eq_nil.mpr ⟨List.append_eq_nil.mpr ⟨?_, ?_⟩, ?_⟩
  · exact if_neg (by simp only [beq_iff_eq]; omega)
  · exact if_neg (by simp only [beq_iff_eq]; omega)
  · refine if_neg ?_
    simp only [Bool.and_eq_true, bne_iff_ne, decide_eq_true_eq]
    rintro ⟨⟨-, -⟩, hlt⟩
    omega

/-- Splicing any block (followed by a newline) immediately before the final
end marker of a well-formed markup yields a markup the validator accepts. -/
theorem splice_ok (z : Str) (ins : Str) (s0 e0 : Nat)
    (hu : ∃ u, xaMarker ++ u = z.drop s0)
    (hv : ∃ v, xzMarker ++ v = z.drop e0)
    (hgap : s0 + 3 ≤ e0)
    (hlen : e0 < z.length) :
    (validateZpl (z.take e0 ++ ins ++ ['\n'] ++ z.drop e0)).ok = true := by
  obtain ⟨u, hu⟩ := hu
  obtain ⟨v, hv⟩ := hv
  have htake_len : (z.take e0).length = e0 := by
    rw [List.length_take]
    omega
  have hxa : xaMarker.isPrefixOf ((z.take e0 ++ ins ++ ['\n'] ++ z.drop e0).drop s0) = true := by
    rw [isPrefixOf_eq_true_iff]
    have hsplit : (z.take e0 ++ ins ++ ['\n'] ++ z.drop e0).drop s0 =
        (z.take e0).drop s0 ++ (ins ++ (['\n'] ++ z.drop e0)) := by
      rw [List.append_assoc, List.append_assoc, List.drop_append_eq_append_drop, htake_len]
      have hz : s0 - e0 = 0 := by omega
      rw [hz, List.drop_zero]
    rw [hsplit, List.drop_take, ← hu, List.take_append_eq_append_take,
      List.take_of_length_le (by simp [xaMarker]; omega), List.append_assoc]
    exact List.prefix_append _ _
  obtain ⟨s1, hs1, hs1le⟩ := firstOccIdx_le xaMarker _ s0 hxa
  have hAlen : ((z.take e0 ++ ins) ++ ['\n']).length = e0 + ins.length + 1 := by
    simp [htake_len]
    omega
  have hxz : xzMarker.isPrefixOf
      ((z.take e0 ++ ins ++ ['\n'] ++ z.drop e0).drop (e0 + ins.length + 1)) = true := by
    rw [isPrefixOf_eq_true_iff]
    have hdropA : (z.take e0 ++ ins ++ ['\n'] ++ z.drop e0).drop (e0 + ins.length + 1) =
        z.drop e0 := by
      rw [← hAlen, List.drop_left]
    rw [hdropA, ← hv]
    exact List.prefix_append _ _
  obtain ⟨e1, he1, he1ge⟩ :=
    lastOccIdx_ge xzMarker (by simp [xzMarker]) _ (e0 + ins.length + 1) hxz
  have hMb : isBlank (z.take e0 ++ ins ++ ['\n'] ++ z.drop e0) = false := by
    have hmem : '^' ∈ z.take e0 ++ ins ++ ['\n'] ++ z.drop e0 := by
      refine List.mem_append.mpr (Or.inr ?_)
      rw [← hv]
      simp [xzMarker]
    by_contra hcontra
    rw [Bool.not_eq_false] at hcontra
    rw [isBlank] at hcontra
    exact absurd (List.all_eq_true.mp hcontra '^' hmem) (by decide)
  exact validateZpl_ok_of _ s1 e1 hMb hs1 he1 (by omega)

/-- C6: injection preserves well-formedness — for every markup the validator
accepts and resolved injection coordinates whose fixed 700 × 60 rectangle fits
within the label's declared print width and label length (vacuously when a
declaration is absent), non-dry-run injection succeeds and the returned markup
validates as `ok = true` again. -/
theorem inject_preserves_validity
    (cfgX cfgY : Nat) (z sku : Str) (qty : Int) (opts : InjectOptions)
    (hok : (validateZpl z).ok = true)
    (hdr : opts.dryRun = false)
    (hpw : ∀ pw, (validateZpl z).meta.printWidth = some pw →
      (coerceOverride opts.x).getD (cfgX : Int) + (ZPL_INJECT_BOX_WIDTH : Int) ≤ (pw : Int))
    (hll : ∀ ll, (validateZpl z).meta.labelLength = some ll →
      (coerceOverride opts.y).getD (cfgY : Int) + (ZPL_INJECT_BOX_HEIGHT : Int) ≤ (ll : Int)) :
    (injectSkuToZpl cfgX cfgY z sku qty opts).success = true ∧
    (validateZpl (injectSkuToZpl cfgX cfgY z sku qty opts).zpl).ok = true := by
  obtain ⟨s0, e0, hf, hl, hle0⟩ := validateZpl_ok_parts z hok
  have hfp := firstOccIdx_spec xaMarker z s0 hf
  have hlp := lastOccIdx_spec xzMarker z e0 hl
  have hgap := marker_gap z s0 e0 hfp hlp hle0
  have hb := valid_not_blank z hok
  have hend : (validateZpl z).meta.endIndex = (e0 : Int) := by
    rw [validateZpl_endIndex z hb, jsLastIndexOf, hl]
  obtain ⟨u, hu⟩ := (isPrefixOf_eq_true_iff _ _).mp hfp
  obtain ⟨v, hv⟩ := (isPrefixOf_eq_true_iff _ _).mp hlp
  have hlen : e0 < z.length := by
    by_contra hge
    push_neg at hge
    rw [List.drop_eq_nil_iff.mpr hge] at hv
    simp [xzMarker] at hv
  have hco : (decide ((coerceOverride opts.x).getD (cfgX : Int) < 0) ||
      decide ((coerceOverride opts.y).getD (cfgY : Int) < 0)) = false := by
    simp only [Bool.or_eq_false_iff, decide_eq_false_iff_not, not_lt]
    exact ⟨coerce_getD_nonneg opts.x cfgX, coerce_getD_nonneg opts.y cfgY⟩
  have hW : (match (validateZpl z).meta.printWidth with
      | some pw => decide ((pw : Int) <
          (coerceOverride opts.x).getD (cfgX : Int) + (ZPL_INJECT_BOX_WIDTH : Int))
      | none => false) = false := by
    cases hw : (validateZpl z).meta.printWidth with
    | none => rfl
    | some pw =>
      simp only [decide_eq_false_iff_not, not_lt]
      exact hpw pw hw
  have hL : (match (validateZpl z).meta.labelLength with
      | some ll => decide ((ll : Int) <
          (coerceOverride opts.y).getD (cfgY : Int) + (ZPL_INJECT_BOX_HEIGHT : Int))
      | none => false) = false := by
    cases hw : (validateZpl z).meta.labelLength with
    | none => rfl
    | some ll =>
      simp only [decide_eq_false_iff_not, not_lt]
      exact hll ll hw
  have hpost := splice_ok z
    (injectionBlockStr ((coerceOverride opts.x).getD (cfgX : Int))
      ((coerceOverride opts.y).getD (cfgY : Int))
      (truncateSku (if (jsTrim sku).isEmpty = true then "UNKNOWN".toList else jsTrim sku)).value
      (if 0 < qty then qty else 1))
    s0 e0 ⟨u, hu⟩ ⟨v, hv⟩ hgap hlen
  unfold injectSkuToZpl
  simp only [hok, Bool.not_true, Bool.false_eq_true, if_false, hco, hW, hL, hdr,
    hend, Int.toNat_natCast, hpost]
  exact ⟨trivial, trivial⟩

/-- Witness for the C6 theorem at a concrete label declaring both bounds. -/
theorem inject_preserves_validity_witness :
    (validateZpl "^XA^PW800^LL1200^FS^XZ".toList).ok = true ∧
    (injectSkuToZpl 50 1100 "^XA^PW800^LL1200^FS^XZ".toList "SKU1".toList 2
      { x := .num 50, y := .num 1100, dryRun := false }).success = true ∧
    (validateZpl (injectSkuToZpl 50 1100 "^XA^PW800^LL1200^FS^XZ".toList "SKU1".toList 2
      { x := .num 50, y := .num 1100, dryRun := false }).zpl).ok = true := by
  have h := inject_preserves_validity 50 1100 "^XA^PW800^LL1200^FS^XZ".toList
    "SKU1".toList 2 { x := .num 50, y := .num 1100, dryRun := false }
    (by decide) rfl
    (by
      intro pw hmeta
      have h800 : (validateZpl "^XA^PW800^LL1200^FS^XZ".toList).meta.printWidth = some 800 := by
        decide
      rw [h800, Option.some_inj] at hmeta
      subst hmeta
      decide)
    (by
      intro ll hmeta
      have h1200 : (validateZpl "^XA^PW800^LL1200^FS^XZ".toList).meta.labelLength = some 1200 := by
        decide
      rw [h1200, Option.some_inj] at hmeta
      subst hmeta
      decide)
  exact ⟨by decide, h.1, h.2⟩

end BuyPrimeLabels
